import Mathlib

/-!
Verification development for the DreamBerd interpreter (Python reference
implementation: `dreamberd_lexer.py`, `dreamberd_parser.py`, `dreamberd_ast.py`,
`src/dreamberd_interpreter.py`).  The lexer, parser and tree-walking evaluator
are embedded shallowly: Python `int`/`float` values become `Int`/`ℚ` (decimal
floats in the programs under study are exact decimal fractions, so `ℚ` models
them faithfully), Python exceptions become `Except String`, the mutable
interpreter object becomes an explicit state record, and Python list objects
live on an explicit heap so that aliasing and identity (`is`) are preserved.
Recursion in the parser and evaluator is fuel-indexed; the fuel is always
large enough for the concrete programs evaluated in the theorems below.
-/

namespace DreamBerd

/-! ## Host (Python) primitives -/

/-- Numeric value of a digit run (the token texts fed to `int` are plain
digit runs, never signed). -/
def digitsVal (cs : List Char) : Nat :=
  cs.foldl (fun a c => a * 10 + (c.toNat - 48)) 0

/-- Python `int(s)` on the digit-run strings produced by the lexer. -/
def pyParseInt (cs : List Char) : Option Int :=
  if cs ≠ [] ∧ cs.all Char.isDigit then some (digitsVal cs) else none

/-- Kernel-computable rational arithmetic (`Rat.divInt` normalizes; the
ambient field operations on `ℚ` are not definitionally reducible, so the
embedding uses these primitives throughout). -/
def qAdd (a b : ℚ) : ℚ :=
  Rat.divInt (a.num * (b.den : Int) + b.num * (a.den : Int)) ((a.den : Int) * (b.den : Int))

def qSub (a b : ℚ) : ℚ :=
  Rat.divInt (a.num * (b.den : Int) - b.num * (a.den : Int)) ((a.den : Int) * (b.den : Int))

def qMul (a b : ℚ) : ℚ := Rat.divInt (a.num * b.num) ((a.den : Int) * (b.den : Int))

def qDiv (a b : ℚ) : ℚ := Rat.divInt (a.num * (b.den : Int)) ((a.den : Int) * b.num)

def qNeg (a : ℚ) : ℚ := Rat.divInt (-a.num) ((a.den : Int))

def qInt (i : Int) : ℚ := Rat.ofInt i

def qZero : ℚ := Rat.ofInt 0

/-- Strict order on rationals via the structural comparison `Rat.blt`. -/
def qLt (a b : ℚ) : Bool := Rat.blt a b

/-- Split a character list on a separator character (Python `str.split`). -/
def charSplit (sep : Char) (cs : List Char) : List (List Char) :=
  match cs with
  | [] => [[]]
  | c :: rest =>
    let r := charSplit sep rest
    if c = sep then [] :: r
    else match r with
         | [] => [[c]]
         | g :: gs => (c :: g) :: gs

/-- Python `float(s)` on the digit/dot strings produced by the lexer:
at most one decimal point, at least one digit.  (Python also accepts
exponents, signs and whitespace, but the lexer never produces those.) -/
def pyParseFloat (cs : List Char) : Option ℚ :=
  match charSplit ('.') cs with
  | [intPart] =>
    if intPart ≠ [] ∧ intPart.all Char.isDigit then some (qInt (digitsVal intPart)) else none
  | [intPart, fracPart] =>
    if (intPart ++ fracPart) ≠ [] ∧ (intPart ++ fracPart).all Char.isDigit then
      some (Rat.divInt
        ((digitsVal intPart * 10 ^ fracPart.length + digitsVal fracPart : Nat) : Int)
        ((10 ^ fracPart.length : Nat) : Int))
    else none
  | _ => none

/-- Python `int(x)` on a float: truncation toward zero (`Int.div` is
T-division, matching CPython). -/
def pyTrunc (q : ℚ) : Int := Int.tdiv q.num (q.den : Int)

/-- Python `abs` on numbers. -/
def pyAbs (q : ℚ) : ℚ := if qLt q qZero then qNeg q else q

/-- Floor of a rational (`q.den` is positive, `Int.fdiv` is floor division). -/
def ratFloor (q : ℚ) : Int := Int.fdiv q.num (q.den : Int)

/-- Exponentiation of a rational by a natural number. -/
def qpowNat (q : ℚ) : Nat → ℚ
  | 0 => qInt 1
  | n + 1 => qMul q (qpowNat q n)

/-- Smallest `k ≤ bound` with `den ∣ 10^k`, used to render decimal floats. -/
def decExp (den : Nat) : Nat → Option Nat
  | 0 => if den ∣ 1 then some 0 else none
  | b + 1 =>
    match decExp den b with
    | some k => some k
    | none => if den ∣ 10 ^ (b + 1) then some (b + 1) else none

/-- Drop trailing zero digits but keep at least one digit
(Python float repr prints `1.1`, `0.5`, `3.0`). -/
def stripZeros (ds : List Char) : List Char :=
  match ds with
  | [] => [('0')]
  | _ => let r := (ds.reverse.dropWhile (fun c => c = ('0'))).reverse
         if r = [] then [('0')] else r

/-- Decimal digits of a natural number. -/
def natDigits (n : Nat) : List Char :=
  (toString n).data

/-- Python `str(x)` on a float.  The reference programs only ever render
floats whose value is an exact decimal fraction; a non-decimal rational
falls back to the raw `ℚ` rendering (no claim depends on that case). -/
def pyStrFloat (q : ℚ) : String :=
  let sign := if qLt q qZero then [('-')] else []
  let n := q.num.natAbs
  if q.den = 1 then String.mk (sign ++ natDigits n) ++ (".0")
  else
    match decExp q.den 40 with
    | some k =>
      let scaled := n * (10 ^ k / q.den)
      let intPart := scaled / 10 ^ k
      let fracDigits := scaled % 10 ^ k
      let padded :=
        let ds := natDigits fracDigits
        List.replicate (k - ds.length) ('0') ++ ds
      String.mk (sign ++ natDigits intPart ++ ('.') :: stripZeros padded)
    | none => toString q.num ++ ("/") ++ toString q.den

/-- Python `str.lower` (kernel-computable form of the toLower operation). -/
def strLower (s : String) : String := String.mk (s.data.map Char.toLower)

/-- `sep.join(parts)` (kernel-computable string joining). -/
def joinSep (sep : String) : List String → String
  | [] => ("")
  | x :: xs => xs.foldl (fun a s => a ++ sep ++ s) x

/-! ## Lexer: tokens (`dreamberd_lexer.py`, `TokenType` / `Token`) -/

inductive TokenType where
  | NUMBER | STRING | BOOLEAN | MAYBE
  | IDENTIFIER
  | CONST | CONST_CONST_CONST | VAR
  | FUNCTION | FUNC | FUN | FN | FUNCTI | F | UNION
  | CLASS | CLASSNAME
  | IF | ELSE | WHEN | RETURN | PRINT | DELETE
  | IMPORT | EXPORT | TO | REVERSE
  | PREVIOUS | NEXT | CURRENT | ASYNC | NOOP | USE | NEW | AWAIT
  | PLUS | MINUS | MULTIPLY | DIVIDE | POWER | MODULO
  | INCREMENT | DECREMENT
  | ASSIGN | LOOSE_EQUAL | STRICT_EQUAL | SUPER_STRICT_EQUAL | VERY_LOOSE_EQUAL
  | NOT_EQUAL | LESS_THAN | GREATER_THAN | LESS_EQUAL | GREATER_EQUAL
  | AND | OR | NOT
  | SEMICOLON | COMMA | DOT | COLON | ARROW
  | LPAREN | RPAREN | LBRACE | RBRACE | LBRACKET | RBRACKET
  | ANGLE_LEFT | ANGLE_RIGHT
  | EXCLAMATION | INVERTED_EXCLAMATION | QUESTION
  | NEWLINE | INDENT | DEDENT | EOF
  | DOLLAR | POUND | YEN | EURO
  | FILE_SEPARATOR
deriving DecidableEq

structure Token where
  type : TokenType
  value : String
  line : Nat
  column : Nat
  priority : Int
deriving DecidableEq

/-- Keyword table (`DreamBerdLexer.keywords`); looked up on the lowercased
identifier text, so the dead `'True'`/`'False'` keys of the Python dict can
never be hit and are omitted.  `undefined` and `null` map to `IDENTIFIER`
and are resolved to special literals by the parser. -/
def keywordLookup (s : String) : TokenType :=
  if s = ("const") then .CONST
  else if s = ("var") then .VAR
  else if s = ("function") then .FUNCTION
  else if s = ("func") then .FUNC
  else if s = ("fun") then .FUN
  else if s = ("fn") then .FN
  else if s = ("functi") then .FUNCTI
  else if s = ("f") then .F
  else if s = ("union") then .UNION
  else if s = ("class") then .CLASS
  else if s = ("classname") then .CLASSNAME
  else if s = ("if") then .IF
  else if s = ("else") then .ELSE
  else if s = ("when") then .WHEN
  else if s = ("return") then .RETURN
  else if s = ("print") then .PRINT
  else if s = ("delete") then .DELETE
  else if s = ("import") then .IMPORT
  else if s = ("export") then .EXPORT
  else if s = ("to") then .TO
  else if s = ("reverse") then .REVERSE
  else if s = ("previous") then .PREVIOUS
  else if s = ("next") then .NEXT
  else if s = ("current") then .CURRENT
  else if s = ("async") then .ASYNC
  else if s = ("noop") then .NOOP
  else if s = ("use") then .USE
  else if s = ("new") then .NEW
  else if s = ("await") then .AWAIT
  else if s = ("true") then .BOOLEAN
  else if s = ("false") then .BOOLEAN
  else if s = ("maybe") then .MAYBE
  else if s = ("undefined") then .IDENTIFIER
  else if s = ("null") then .IDENTIFIER
  else .IDENTIFIER

/-- The word-to-digits table shared by `read_number` and the interpreter's
builtin scope (`number_names`). -/
def numberNames : List (String × String) :=
  [(("zero"), ("0")), (("one"), ("1")), (("two"), ("2")), (("three"), ("3")),
   (("four"), ("4")), (("five"), ("5")), (("six"), ("6")), (("seven"), ("7")),
   (("eight"), ("8")), (("nine"), ("9")), (("ten"), ("10")),
   (("eleven"), ("11")), (("twelve"), ("12"))]

/-- The extra identifier characters of `read_identifier`, i.e. the code points
of the Python string `'_$👍🎯1️⃣2️⃣3️⃣4️⃣5️⃣6️⃣7️⃣8️⃣9️⃣0️⃣'` (each keycap
emoji contributes a digit, U+FE0F and U+20E3). -/
def identExtraChars : List Char :=
  [('_'), ('$'), (Char.ofNat 0x1F44D), (Char.ofNat 0x1F3AF),
   ('1'), ('\uFE0F'), ('\u20E3'), ('2'), ('\uFE0F'), ('\u20E3'),
   ('3'), ('\uFE0F'), ('\u20E3'), ('4'), ('\uFE0F'), ('\u20E3'),
   ('5'), ('\uFE0F'), ('\u20E3'), ('6'), ('\uFE0F'), ('\u20E3'),
   ('7'), ('\uFE0F'), ('\u20E3'), ('8'), ('\uFE0F'), ('\u20E3'),
   ('9'), ('\uFE0F'), ('\u20E3'), ('0'), ('\uFE0F'), ('\u20E3')]

def isIdentChar (c : Char) : Bool := c.isAlphanum || identExtraChars.contains c

/-- Lexer scan state: remaining source text plus the 1-based line/column of
the next character (the Python lexer tracks `pos`/`line`/`column`). -/
structure LexState where
  rem : List Char
  line : Nat
  col : Nat
deriving DecidableEq

/-- One `advance()` step. -/
def advance1 (st : LexState) : LexState :=
  match st.rem with
  | [] => st
  | c :: rest =>
    if c = ('\n') then ⟨rest, st.line + 1, 1⟩ else ⟨rest, st.line, st.col + 1⟩

def advanceN : Nat → LexState → LexState
  | 0, st => st
  | n + 1, st => advanceN n (advance1 st)

/-- `skip_whitespace`: spaces and tabs only. -/
def skipWsAux : List Char → Nat → Nat → LexState
  | [], l, c => ⟨[], l, c⟩
  | ch :: rest, l, c =>
    if ch = (' ') || ch = ('\t') then skipWsAux rest l (c + 1) else ⟨ch :: rest, l, c⟩

def skipWs (st : LexState) : LexState := skipWsAux st.rem st.line st.col

/-- Consume the longest prefix satisfying `p`, maintaining line/column. -/
def lexTakeWhile (p : Char → Bool) : List Char → Nat → Nat → (List Char × LexState)
  | [], l, c => ([], ⟨[], l, c⟩)
  | ch :: rest, l, c =>
    if p ch then
      let lc := if ch = ('\n') then (l + 1, 1) else (l, c + 1)
      let (cs, st') := lexTakeWhile p rest lc.1 lc.2
      (ch :: cs, st')
    else ([], ⟨ch :: rest, l, c⟩)

/-- Length of the leading run of `ch`. -/
def countLeading (ch : Char) : List Char → Nat
  | [] => 0
  | c :: rest => if c = ch then countLeading ch rest + 1 else 0

/-- `read_number`: the word-name check first (dead when invoked from
`tokenize`, which only calls `read_number` on a digit), then a digit/dot run,
then an optional `/digits` fraction suffix kept in the same token text. -/
def readNumber (st : LexState) : Token × LexState :=
  let sl := st.line
  let sc := st.col
  let word := String.mk (st.rem.takeWhile Char.isAlpha)
  match numberNames.lookup (strLower word) with
  | some numText =>
    let (_, st') := lexTakeWhile Char.isAlpha st.rem st.line st.col
    (⟨.NUMBER, numText, sl, sc, 0⟩, st')
  | none =>
    let (ds, st1) := lexTakeWhile (fun c => c.isDigit || c = ('.')) st.rem st.line st.col
    match st1.rem with
    | c :: d :: _ =>
      if c = ('/') ∧ d.isDigit then
        let st2 := advance1 st1
        let (fs, st3) := lexTakeWhile Char.isDigit st2.rem st2.line st2.col
        (⟨.NUMBER, String.mk (ds ++ ('/') :: fs), sl, sc, 0⟩, st3)
      else (⟨.NUMBER, String.mk ds, sl, sc, 0⟩, st1)
    | _ => (⟨.NUMBER, String.mk ds, sl, sc, 0⟩, st1)

/-- Body loop of `read_string`: collect characters until a run of at least
`need` closing quotes, consuming exactly `need` of them. -/
def readStringBody (q : Char) (need : Nat) : List Char → Nat → Nat → (List Char × LexState)
  | [], l, c => ([], ⟨[], l, c⟩)
  | ch :: rest, l, c =>
    if ch = q then
      if need ≤ countLeading q (ch :: rest) then
        ([], ⟨(ch :: rest).drop need, l, c + need⟩)
      else
        let (body, st') := readStringBody q need rest l (c + 1)
        (ch :: body, st')
    else
      let lc := if ch = ('\n') then (l + 1, 1) else (l, c + 1)
      let (body, st') := readStringBody q need rest lc.1 lc.2
      (ch :: body, st')

/-- `read_string`: the length of the opening quote run becomes the required
closing-run length. -/
def readString (st : LexState) : Token × LexState :=
  let sl := st.line
  let sc := st.col
  match st.rem with
  | [] => (⟨.STRING, (""), sl, sc, 0⟩, st)
  | q :: rest =>
    let extra := countLeading q rest
    let quoteCount := 1 + extra
    let afterOpen : LexState := ⟨rest.drop extra, sl, sc + quoteCount⟩
    let (body, st') := readStringBody q quoteCount afterOpen.rem afterOpen.line afterOpen.col
    (⟨.STRING, String.mk body, sl, sc, 0⟩, st')

/-- `read_identifier`, including the save/restore lookahead that fuses three
consecutive `const` words into one `CONST_CONST_CONST` token. -/
def readIdentifier (st : LexState) : Token × LexState :=
  let sl := st.line
  let sc := st.col
  let (cs, st1) := lexTakeWhile isIdentChar st.rem st.line st.col
  let value := String.mk cs
  if strLower value = ("const") then
    let st2 := skipWs st1
    let w2 := st2.rem.takeWhile Char.isAlpha
    if w2 ≠ [] ∧ strLower (String.mk w2) = ("const") then
      let st3 := advanceN w2.length st2
      let st4 := skipWs st3
      let w3 := st4.rem.takeWhile Char.isAlpha
      if w3 ≠ [] ∧ strLower (String.mk w3) = ("const") then
        let st5 := advanceN w3.length st4
        (⟨.CONST_CONST_CONST, ("const const const"), sl, sc, 0⟩, st5)
      else (⟨.CONST, value, sl, sc, 0⟩, st1)
    else (⟨.CONST, value, sl, sc, 0⟩, st1)
  else (⟨keywordLookup (strLower value), value, sl, sc, 0⟩, st1)

/-- `read_exclamation_marks`: a maximal `!` run becomes one token whose
priority is the run length. -/
def readExclam (st : LexState) : Token × LexState :=
  let sl := st.line
  let sc := st.col
  let (cs, st') := lexTakeWhile (fun c => c = ('!')) st.rem st.line st.col
  (⟨.EXCLAMATION, String.mk cs, sl, sc, (cs.length : Int)⟩, st')

/-- Token type for a maximal `=` run of length `L` (the dispatch of
`tokenize` on an `=` not starting `=>`). -/
def equalsRunToken (L : Nat) : TokenType :=
  if 5 ≤ L then .FILE_SEPARATOR
  else if L = 4 then .SUPER_STRICT_EQUAL
  else if L = 3 then .STRICT_EQUAL
  else if L = 2 then .LOOSE_EQUAL
  else .ASSIGN

/-- One iteration of the `tokenize` loop: skip horizontal whitespace, then
dispatch on the current character.  Comments and unknown characters emit no
token.  The branch order mirrors the Python `if`/`elif` chain exactly. -/
def lexStep (st0 : LexState) : List Token × LexState :=
  let st := skipWs st0
  match st.rem with
  | [] => ([], st)
  | ch :: rest =>
    let sl := st.line
    let sc := st.col
    if ch = ('\n') then ([⟨.NEWLINE, ("\n"), sl, sc, 0⟩], advance1 st)
    else if ch = ('/') ∧ rest.head? = some ('/') then
      let (_, st') := lexTakeWhile (fun c => c ≠ ('\n')) st.rem sl sc
      ([], st')
    else if ch.isDigit then
      let (t, st') := readNumber st
      ([t], st')
    else if ch = ('"') ∨ ch = ('\'') then
      let (t, st') := readString st
      ([t], st')
    else if ch.isAlpha then
      let (t, st') := readIdentifier st
      ([t], st')
    else if ch = ('=') ∧ rest.head? = some ('>') then
      ([⟨.ARROW, ("=>"), sl, sc, 0⟩], advance1 (advance1 st))
    else if ch = ('=') then
      let n := countLeading ('=') st.rem
      ([⟨equalsRunToken n, String.mk (List.replicate n ('=')), sl, sc, 0⟩], advanceN n st)
    else if ch = ('!') then
      let (t, st') := readExclam st
      ([t], st')
    else if ch = ('¡') then ([⟨.INVERTED_EXCLAMATION, ("¡"), sl, sc, -1⟩], advance1 st)
    else if ch = ('?') then ([⟨.QUESTION, ("?"), sl, sc, 0⟩], advance1 st)
    else if ch = (';') then ([⟨.NOT, (";"), sl, sc, 0⟩], advance1 st)
    else if ch = ('+') then
      if rest.head? = some ('+') then ([⟨.INCREMENT, ("++"), sl, sc, 0⟩], advance1 (advance1 st))
      else ([⟨.PLUS, ("+"), sl, sc, 0⟩], advance1 st)
    else if ch = ('-') then
      if rest.head? = some ('-') then ([⟨.DECREMENT, ("--"), sl, sc, 0⟩], advance1 (advance1 st))
      else ([⟨.MINUS, ("-"), sl, sc, 0⟩], advance1 st)
    else if ch = ('*') then ([⟨.MULTIPLY, ("*"), sl, sc, 0⟩], advance1 st)
    else if ch = ('/') then ([⟨.DIVIDE, ("/"), sl, sc, 0⟩], advance1 st)
    else if ch = ('^') then ([⟨.POWER, ("^"), sl, sc, 0⟩], advance1 st)
    else if ch = ('%') then ([⟨.MODULO, ("%"), sl, sc, 0⟩], advance1 st)
    else if ch = ('<') then
      if rest.head? = some ('=') then ([⟨.LESS_EQUAL, ("<="), sl, sc, 0⟩], advance1 (advance1 st))
      else ([⟨.LESS_THAN, ("<"), sl, sc, 0⟩], advance1 st)
    else if ch = ('>') then
      if rest.head? = some ('=') then ([⟨.GREATER_EQUAL, (">="), sl, sc, 0⟩], advance1 (advance1 st))
      else ([⟨.GREATER_THAN, (">"), sl, sc, 0⟩], advance1 st)
    else if ch = (',') then ([⟨.COMMA, (","), sl, sc, 0⟩], advance1 st)
    else if ch = ('.') then ([⟨.DOT, ("."), sl, sc, 0⟩], advance1 st)
    else if ch = (':') then ([⟨.COLON, (":"), sl, sc, 0⟩], advance1 st)
    else if ch = ('(') then ([⟨.LPAREN, ("("), sl, sc, 0⟩], advance1 st)
    else if ch = (')') then ([⟨.RPAREN, (")"), sl, sc, 0⟩], advance1 st)
    else if ch = ('{') then ([⟨.LBRACE, ("\x7b"), sl, sc, 0⟩], advance1 st)
    else if ch = ('}') then ([⟨.RBRACE, ("\x7d"), sl, sc, 0⟩], advance1 st)
    else if ch = ('[') then ([⟨.LBRACKET, ("["), sl, sc, 0⟩], advance1 st)
    else if ch = (']') then ([⟨.RBRACKET, ("]"), sl, sc, 0⟩], advance1 st)
    else if ch = ('$') then ([⟨.DOLLAR, ("$"), sl, sc, 0⟩], advance1 st)
    else if ch = ('£') then ([⟨.POUND, ("£"), sl, sc, 0⟩], advance1 st)
    else if ch = ('¥') then ([⟨.YEN, ("¥"), sl, sc, 0⟩], advance1 st)
    else if ch = ('€') then ([⟨.EURO, ("€"), sl, sc, 0⟩], advance1 st)
    else ([], advance1 st)

/-- Fuel-indexed `tokenize` loop; every step on a non-empty remainder consumes
at least one character, so `source.length + 1` fuel always suffices. -/
def tokenizeAux : Nat → LexState → List Token
  | 0, st => [⟨.EOF, (""), st.line, st.col, 0⟩]
  | f + 1, st =>
    if st.rem.isEmpty then [⟨.EOF, (""), st.line, st.col, 0⟩]
    else
      let (ts, st') := lexStep st
      ts ++ tokenizeAux f st'

/-- `DreamBerdLexer.tokenize`. -/
def tokenize (source : String) : List Token :=
  tokenizeAux (source.length + 1) ⟨source.data, 1, 1⟩

/-! ## AST (`dreamberd_ast.py`) -/

/-- `NumberLiteral.value : Union[int, float, str]` (a string keeps a raw
fraction such as `"1/0"` for lazy division). -/
inductive NumVal where
  | nInt (i : Int)
  | nFloat (q : ℚ)
  | nStr (s : String)

inductive Expr where
  | numberLit (v : NumVal)
  | stringLit (s : String)
  | boolLit (b : Bool)
  | maybeLit
  | undefinedLit
  | nullLit
  | ident (name : String)
  | arrayLit (elems : List Expr)
  | arrayAccess (arr : Expr) (idx : Expr)
  | binOp (left : Expr) (op : String) (right : Expr)
  | unOp (op : String) (operand : Expr)
  | assign (target : Expr) (value : Expr)
  | increment (target : Expr) (prefixed : Bool)
  | decrement (target : Expr) (prefixed : Bool)
  | call (fn : Expr) (args : List Expr)
  | member (obj : Expr) (prop : String)
  | methodCall (obj : Expr) (methodName : String) (args : List Expr)
  | previousE (target : Expr)
  | nextE (target : Expr)
  | currentE (target : Expr)
  | useE (initialValue : Expr)
  | newE (className : String) (args : List Expr)
  | awaitE (e : Expr)
  | stringInterp (template : String) (exprs : List Expr) (currencySymbol : String)

mutual

inductive Stmt where
  | varDecl (constCount varCount : Nat) (name : String) (value : Option Expr)
      (lifetime : Option String) (priority : Int) (typeAnn : Option String)
  | funcDecl (keyword : String) (name : String) (params : List String)
      (body : FuncBody) (isAsync : Bool)
  | classDecl (keyword : String) (name : String) (body : List Stmt)
  | ifStmt (cond : Expr) (thenBody : List Stmt) (elseBody : Option (List Stmt))
  | whenStmt (cond : Expr) (body : List Stmt)
  | returnStmt (value : Option Expr)
  | printStmt (value : Expr) (isDebug : Bool)
  | deleteStmt (target : Expr)
  | importStmt (name : String)
  | exportStmt (name : String) (targetFile : String)
  | reverseStmt
  | noopStmt (content : String)
  | exprStmt (e : Expr) (priority : Int) (isDebug : Bool)
  | fileBlock (name : Option String) (body : List Stmt)
  | globalConstDecl (name : String) (value : Expr) (priority : Int)

/-- `FunctionDeclaration.body : Union[Expression, List[Statement]]`. -/
inductive FuncBody where
  | expr (e : Expr)
  | block (stmts : List Stmt)

end

structure ProgramAst where
  body : List Stmt

/-! ## Parser (`dreamberd_parser.py`) -/

structure PState where
  tokens : List Token
  pos : Nat

/-- `self.current_token` (the token list always ends with `EOF`). -/
def cur (p : PState) : Token :=
  p.tokens.getD p.pos ⟨.EOF, (""), 0, 0, 0⟩

/-- `advance`: clamps at the final (EOF) token. -/
def padvance (p : PState) : PState :=
  if p.pos < p.tokens.length - 1 then ⟨p.tokens, p.pos + 1⟩ else p

/-- `match` on token types. -/
def pmatch (p : PState) (ts : List TokenType) : Bool :=
  ts.contains (cur p).type

/-- Format of `ParseError` (message, 1-based line and column). -/
def parseErrFmt (msg : String) (t : Token) : String :=
  ("Parse error at line ") ++ toString t.line ++ (", column ") ++ toString t.column
    ++ (": ") ++ msg

/-- `consume`: expected-token check.  (The Python default message interpolates
the token-type names; only the erroring itself is semantically relevant.) -/
def consume (p : PState) (tt : TokenType) (msg : String) : Except String (Token × PState) :=
  if (cur p).type = tt then .ok (cur p, padvance p)
  else .error (parseErrFmt (if msg = ("") then ("Unexpected token") else msg) (cur p))

/-- `skip_newlines` (fuel-indexed loop). -/
def skipNewlines : Nat → PState → PState
  | 0, p => p
  | f + 1, p => if pmatch p [.NEWLINE] then skipNewlines f (padvance p) else p

/-- Inner loop of `consume_statement_terminator`: extra `?` tokens. -/
def skipQuestions : Nat → PState → PState
  | 0, p => p
  | f + 1, p => if pmatch p [.QUESTION] then skipQuestions f (padvance p) else p

/-- `consume_statement_terminator`: returns `(priority, is-debug)`. -/
def consumeTerminator (f : Nat) (p : PState) : (Int × Bool) × PState :=
  if pmatch p [.EXCLAMATION] then (((cur p).priority, false), padvance p)
  else if pmatch p [.INVERTED_EXCLAMATION] then (((cur p).priority, false), padvance p)
  else if pmatch p [.QUESTION] then ((0, true), skipQuestions f (padvance p))
  else ((0, false), p)

/-- Leading `const`/`var` counting loop of `parse_variable_declaration`. -/
def countDeclKeywords : Nat → PState → Nat → Nat → (Nat × Nat × PState)
  | 0, p, c, v => (c, v, p)
  | f + 1, p, c, v =>
    if pmatch p [.CONST] then countDeclKeywords f (padvance p) (c + 1) v
    else if pmatch p [.VAR] then countDeclKeywords f (padvance p) c (v + 1)
    else (c, v, p)

/-- Parameter-list loop of `parse_function_declaration`. -/
def parseParams : Nat → PState → List String → Except String (List String × PState)
  | 0, _, _ => .error ("parser fuel exhausted")
  | f + 1, p, acc =>
    if pmatch p [.RPAREN] then .ok (acc, p)
    else do
      let p ← if acc ≠ [] then do
          let (_, p') ← consume p .COMMA ("Expected ',' between parameters")
          pure p'
        else pure p
      let (t, p') ← consume p .IDENTIFIER ("Expected parameter name")
      parseParams f p' (acc ++ [t.value])

/-- Mark a parsed function declaration as async. -/
def setAsync : Stmt → Stmt
  | .funcDecl k n ps b _ => .funcDecl k n ps b true
  | s => s

def funcKeywords : List TokenType :=
  [.FUNCTION, .FUNC, .FUN, .FN, .FUNCTI, .F, .UNION]

mutual

/-- Top-level loop of `parse`. -/
def parseTopLoop : Nat → PState → List Stmt → Except String (List Stmt × PState)
  | 0, _, _ => .error ("parser fuel exhausted")
  | f + 1, p, acc =>
    if pmatch p [.EOF] then .ok (acc, p)
    else
      let p := skipNewlines f p
      if pmatch p [.EOF] then .ok (acc, p)
      else if pmatch p [.FILE_SEPARATOR] then do
        let p := padvance p
        let (fname, p) :=
          if pmatch p [.IDENTIFIER] then (some (cur p).value, padvance p) else (none, p)
        let (body, p) ← parseFileBody f p []
        parseTopLoop f p (acc ++ [.fileBlock fname body])
      else do
        let (s?, p) ← parseStatement f p
        parseTopLoop f p (acc ++ s?.toList)

/-- File-block body loop of `parse`. -/
def parseFileBody : Nat → PState → List Stmt → Except String (List Stmt × PState)
  | 0, _, _ => .error ("parser fuel exhausted")
  | f + 1, p, acc =>
    if pmatch p [.FILE_SEPARATOR, .EOF] then .ok (acc, p)
    else
      let p := skipNewlines f p
      if pmatch p [.FILE_SEPARATOR, .EOF] then parseFileBody f p acc
      else do
        let (s?, p) ← parseStatement f p
        parseFileBody f p (acc ++ s?.toList)

/-- `parse_statement` (returns `none` at end of input). -/
def parseStatement : Nat → PState → Except String (Option Stmt × PState)
  | 0, _ => .error ("parser fuel exhausted")
  | f + 1, p => do
    let p := skipNewlines f p
    if pmatch p [.EOF] then .ok (none, p)
    else if pmatch p [.CONST, .VAR, .CONST_CONST_CONST] then do
      let (s, p) ← parseVarDecl f p
      .ok (some s, p)
    else if pmatch p funcKeywords then do
      let (s, p) ← parseFuncDecl f p
      .ok (some s, p)
    else if pmatch p [.ASYNC] then
      -- the Python `if` has no else: when `async` is not followed by a
      -- function keyword, the consumed `async` falls through to the rest
      let p := padvance p
      if pmatch p funcKeywords then do
        let (s, p) ← parseFuncDecl f p
        .ok (some (setAsync s), p)
      else parseStatementRest f p
    else parseStatementRest f p

/-- Continuation of `parse_statement` after the declaration keywords. -/
def parseStatementRest : Nat → PState → Except String (Option Stmt × PState)
  | 0, _ => .error ("parser fuel exhausted")
  | f + 1, p => do
    if pmatch p [.CLASS, .CLASSNAME] then do
      let (s, p) ← parseClassDecl f p
      .ok (some s, p)
    else if pmatch p [.IF] then do
      let (s, p) ← parseIfStmt f p
      .ok (some s, p)
    else if pmatch p [.WHEN] then do
      let (s, p) ← parseWhenStmt f p
      .ok (some s, p)
    else if pmatch p [.RETURN] then do
      let (s, p) ← parseReturnStmt f p
      .ok (some s, p)
    else if pmatch p [.DELETE] then do
      let (s, p) ← parseDeleteStmt f p
      .ok (some s, p)
    else if pmatch p [.IMPORT] then do
      let (s, p) ← parseImportStmt f p
      .ok (some s, p)
    else if pmatch p [.EXPORT] then do
      let (s, p) ← parseExportStmt f p
      .ok (some s, p)
    else if pmatch p [.REVERSE] then
      let p := padvance p
      let (_, p) := consumeTerminator f p
      .ok (some .reverseStmt, p)
    else if pmatch p [.STRING] then
      let content := (cur p).value
      let p := padvance p
      let (_, p) := consumeTerminator f p
      .ok (some (.noopStmt content), p)
    else do
      let (e, p) ← parseExpression f p
      let ((pr, dbg), p) := consumeTerminator f p
      .ok (some (.exprStmt e pr dbg), p)

/-- `parse_variable_declaration` (including the `const const const` form). -/
def parseVarDecl : Nat → PState → Except String (Stmt × PState)
  | 0, _ => .error ("parser fuel exhausted")
  | f + 1, p => do
    if pmatch p [.CONST_CONST_CONST] then do
      let p := padvance p
      let (nameTok, p) ← consume p .IDENTIFIER ("Expected variable name")
      let (_, p) ← consume p .ASSIGN ("Expected '=' in const const const declaration")
      let (value, p) ← parseExpression f p
      let ((pr, _), p) := consumeTerminator f p
      .ok (.globalConstDecl nameTok.value value pr, p)
    else do
      let (cc, vc, p) := countDeclKeywords f p 0 0
      let (nameTok, p) ← consume p .IDENTIFIER ("Expected variable name")
      let (lifetime, p) ←
        if pmatch p [.LESS_THAN] then do
          let p := padvance p
          let (lt, p) ← consume p .IDENTIFIER ("Expected lifetime")
          let (_, p) ← consume p .GREATER_THAN ("Expected '>' after lifetime")
          pure (some lt.value, p)
        else pure (none, p)
      let (tyAnn, p) ←
        if pmatch p [.COLON] then do
          let p := padvance p
          let (ty, p) ← consume p .IDENTIFIER ("Expected type name")
          pure (some ty.value, p)
        else pure (none, p)
      let (value, p) ←
        if pmatch p [.ASSIGN] then do
          let p := padvance p
          let (v, p) ← parseExpression f p
          pure (some v, p)
        else pure (none, p)
      let ((pr, _), p) := consumeTerminator f p
      .ok (.varDecl cc vc nameTok.value value lifetime pr tyAnn, p)

/-- `parse_function_declaration`. -/
def parseFuncDecl : Nat → PState → Except String (Stmt × PState)
  | 0, _ => .error ("parser fuel exhausted")
  | f + 1, p => do
    let keyword := (cur p).value
    let p := padvance p
    let (nameTok, p) ← consume p .IDENTIFIER ("Expected function name")
    let (params, p) ←
      if pmatch p [.LPAREN] then do
        let p := padvance p
        let (ps, p) ← parseParams f p []
        let (_, p) ← consume p .RPAREN ("Expected ')' after parameters")
        pure (ps, p)
      else pure ([], p)
    let (_, p) ← consume p .ARROW ("Expected '=>' after function signature")
    let (body, p) ←
      if pmatch p [.LBRACE] then do
        let p := padvance p
        let (stmts, p) ← parseBlockBody f p []
        let (_, p) ← consume p .RBRACE ("Expected '\x7d' after function body")
        pure (FuncBody.block stmts, p)
      else do
        let (e, p) ← parseExpression f p
        pure (FuncBody.expr e, p)
    let (_, p) := consumeTerminator f p
    .ok (.funcDecl keyword nameTok.value params body false, p)

/-- `parse_class_declaration`. -/
def parseClassDecl : Nat → PState → Except String (Stmt × PState)
  | 0, _ => .error ("parser fuel exhausted")
  | f + 1, p => do
    let keyword := (cur p).value
    let p := padvance p
    let (nameTok, p) ← consume p .IDENTIFIER ("Expected class name")
    let (_, p) ← consume p .LBRACE ("Expected '\x7b' after class name")
    let (body, p) ← parseBlockBody f p []
    let (_, p) ← consume p .RBRACE ("Expected '\x7d' after class body")
    .ok (.classDecl keyword nameTok.value body, p)

/-- Brace-delimited statement-list loop (function/class/if/else/when bodies). -/
def parseBlockBody : Nat → PState → List Stmt → Except String (List Stmt × PState)
  | 0, _, _ => .error ("parser fuel exhausted")
  | f + 1, p, acc =>
    if pmatch p [.RBRACE] then .ok (acc, p)
    else
      let p := skipNewlines f p
      if pmatch p [.RBRACE] then parseBlockBody f p acc
      else do
        let (s?, p) ← parseStatement f p
        parseBlockBody f p (acc ++ s?.toList)

/-- `parse_if_statement`. -/
def parseIfStmt : Nat → PState → Except String (Stmt × PState)
  | 0, _ => .error ("parser fuel exhausted")
  | f + 1, p => do
    let p := padvance p
    let (_, p) ← consume p .LPAREN ("Expected '(' after 'if'")
    let (cond, p) ← parseExpression f p
    let (_, p) ← consume p .RPAREN ("Expected ')' after if condition")
    let (_, p) ← consume p .LBRACE ("Expected '\x7b' after if condition")
    let (thenBody, p) ← parseBlockBody f p []
    let (_, p) ← consume p .RBRACE ("Expected '\x7d' after if body")
    if pmatch p [.ELSE] then do
      let p := padvance p
      let (_, p) ← consume p .LBRACE ("Expected '\x7b' after 'else'")
      let (elseBody, p) ← parseBlockBody f p []
      let (_, p) ← consume p .RBRACE ("Expected '\x7d' after else body")
      .ok (.ifStmt cond thenBody (some elseBody), p)
    else .ok (.ifStmt cond thenBody none, p)

/-- `parse_when_statement`. -/
def parseWhenStmt : Nat → PState → Except String (Stmt × PState)
  | 0, _ => .error ("parser fuel exhausted")
  | f + 1, p => do
    let p := padvance p
    let (_, p) ← consume p .LPAREN ("Expected '(' after 'when'")
    let (cond, p) ← parseExpression f p
    let (_, p) ← consume p .RPAREN ("Expected ')' after when condition")
    let (_, p) ← consume p .LBRACE ("Expected '\x7b' after when condition")
    let (body, p) ← parseBlockBody f p []
    let (_, p) ← consume p .RBRACE ("Expected '\x7d' after when body")
    .ok (.whenStmt cond body, p)

/-- `parse_return_statement`. -/
def parseReturnStmt : Nat → PState → Except String (Stmt × PState)
  | 0, _ => .error ("parser fuel exhausted")
  | f + 1, p => do
    let p := padvance p
    if pmatch p [.EXCLAMATION, .QUESTION, .NEWLINE, .EOF] then
      let (_, p) := consumeTerminator f p
      .ok (.returnStmt none, p)
    else do
      let (v, p) ← parseExpression f p
      let (_, p) := consumeTerminator f p
      .ok (.returnStmt (some v), p)

/-- `parse_delete_statement`. -/
def parseDeleteStmt : Nat → PState → Except String (Stmt × PState)
  | 0, _ => .error ("parser fuel exhausted")
  | f + 1, p => do
    let p := padvance p
    let (target, p) ← parseExpression f p
    let (_, p) := consumeTerminator f p
    .ok (.deleteStmt target, p)

/-- `parse_import_statement`. -/
def parseImportStmt : Nat → PState → Except String (Stmt × PState)
  | 0, _ => .error ("parser fuel exhausted")
  | f + 1, p => do
    let p := padvance p
    let (nameTok, p) ← consume p .IDENTIFIER ("Expected import name")
    let (_, p) := consumeTerminator f p
    .ok (.importStmt nameTok.value, p)

/-- `parse_export_statement`. -/
def parseExportStmt : Nat → PState → Except String (Stmt × PState)
  | 0, _ => .error ("parser fuel exhausted")
  | f + 1, p => do
    let p := padvance p
    let (nameTok, p) ← consume p .IDENTIFIER ("Expected export name")
    let (_, p) ← consume p .TO ("Expected 'to' after export name")
    let (targetTok, p) ← consume p .STRING ("Expected target file name")
    let (_, p) := consumeTerminator f p
    .ok (.exportStmt nameTok.value targetTok.value, p)

/-- `parse_expression`. -/
def parseExpression : Nat → PState → Except String (Expr × PState)
  | 0, _ => .error ("parser fuel exhausted")
  | f + 1, p => parseAssignment f p

/-- `parse_assignment`: at expression level a single `=` is captured by the
equality layer, never as an assignment, so this just delegates. -/
def parseAssignment : Nat → PState → Except String (Expr × PState)
  | 0, _ => .error ("parser fuel exhausted")
  | f + 1, p => parseOr f p

def parseOr : Nat → PState → Except String (Expr × PState)
  | 0, _ => .error ("parser fuel exhausted")
  | f + 1, p => do
    let (e, p) ← parseAnd f p
    parseOrLoop f p e

def parseOrLoop : Nat → PState → Expr → Except String (Expr × PState)
  | 0, _, _ => .error ("parser fuel exhausted")
  | f + 1, p, e =>
    if pmatch p [.OR] then do
      let op := (cur p).value
      let p := padvance p
      let (r, p) ← parseAnd f p
      parseOrLoop f p (.binOp e op r)
    else .ok (e, p)

def parseAnd : Nat → PState → Except String (Expr × PState)
  | 0, _ => .error ("parser fuel exhausted")
  | f + 1, p => do
    let (e, p) ← parseEquality f p
    parseAndLoop f p e

def parseAndLoop : Nat → PState → Expr → Except String (Expr × PState)
  | 0, _, _ => .error ("parser fuel exhausted")
  | f + 1, p, e =>
    if pmatch p [.AND] then do
      let op := (cur p).value
      let p := padvance p
      let (r, p) ← parseEquality f p
      parseAndLoop f p (.binOp e op r)
    else .ok (e, p)

def parseEquality : Nat → PState → Except String (Expr × PState)
  | 0, _ => .error ("parser fuel exhausted")
  | f + 1, p => do
    let (e, p) ← parseComparison f p
    parseEqualityLoop f p e

def parseEqualityLoop : Nat → PState → Expr → Except String (Expr × PState)
  | 0, _, _ => .error ("parser fuel exhausted")
  | f + 1, p, e =>
    if pmatch p [.ASSIGN, .LOOSE_EQUAL, .STRICT_EQUAL, .SUPER_STRICT_EQUAL,
                 .VERY_LOOSE_EQUAL, .NOT_EQUAL] then do
      let op := (cur p).value
      let p := padvance p
      let (r, p) ← parseComparison f p
      parseEqualityLoop f p (.binOp e op r)
    else .ok (e, p)

def parseComparison : Nat → PState → Except String (Expr × PState)
  | 0, _ => .error ("parser fuel exhausted")
  | f + 1, p => do
    let (e, p) ← parseAddition f p
    parseComparisonLoop f p e

def parseComparisonLoop : Nat → PState → Expr → Except String (Expr × PState)
  | 0, _, _ => .error ("parser fuel exhausted")
  | f + 1, p, e =>
    if pmatch p [.LESS_THAN, .GREATER_THAN, .LESS_EQUAL, .GREATER_EQUAL] then do
      let op := (cur p).value
      let p := padvance p
      let (r, p) ← parseAddition f p
      parseComparisonLoop f p (.binOp e op r)
    else .ok (e, p)

def parseAddition : Nat → PState → Except String (Expr × PState)
  | 0, _ => .error ("parser fuel exhausted")
  | f + 1, p => do
    let (e, p) ← parseMultiplication f p
    parseAdditionLoop f p e

def parseAdditionLoop : Nat → PState → Expr → Except String (Expr × PState)
  | 0, _, _ => .error ("parser fuel exhausted")
  | f + 1, p, e =>
    if pmatch p [.PLUS, .MINUS] then do
      let op := (cur p).value
      let p := padvance p
      let (r, p) ← parseMultiplication f p
      parseAdditionLoop f p (.binOp e op r)
    else .ok (e, p)

def parseMultiplication : Nat → PState → Except String (Expr × PState)
  | 0, _ => .error ("parser fuel exhausted")
  | f + 1, p => do
    let (e, p) ← parsePower f p
    parseMultiplicationLoop f p e

def parseMultiplicationLoop : Nat → PState → Expr → Except String (Expr × PState)
  | 0, _, _ => .error ("parser fuel exhausted")
  | f + 1, p, e =>
    if pmatch p [.MULTIPLY, .DIVIDE, .MODULO] then do
      let op := (cur p).value
      let p := padvance p
      let (r, p) ← parsePower f p
      parseMultiplicationLoop f p (.binOp e op r)
    else .ok (e, p)

def parsePower : Nat → PState → Except String (Expr × PState)
  | 0, _ => .error ("parser fuel exhausted")
  | f + 1, p => do
    let (e, p) ← parseUnary f p
    parsePowerLoop f p e

def parsePowerLoop : Nat → PState → Expr → Except String (Expr × PState)
  | 0, _, _ => .error ("parser fuel exhausted")
  | f + 1, p, e =>
    if pmatch p [.POWER] then do
      let op := (cur p).value
      let p := padvance p
      let (r, p) ← parseUnary f p
      parsePowerLoop f p (.binOp e op r)
    else .ok (e, p)

/-- `parse_unary`. -/
def parseUnary : Nat → PState → Except String (Expr × PState)
  | 0, _ => .error ("parser fuel exhausted")
  | f + 1, p =>
    if pmatch p [.NOT, .MINUS, .PLUS] then do
      let op := (cur p).value
      let p := padvance p
      let (operand, p) ← parseUnary f p
      .ok (.unOp op operand, p)
    else if pmatch p [.PREVIOUS] then do
      let p := padvance p
      let (t, p) ← parseUnary f p
      .ok (.previousE t, p)
    else if pmatch p [.NEXT] then do
      let p := padvance p
      let (t, p) ← parseUnary f p
      .ok (.nextE t, p)
    else if pmatch p [.CURRENT] then do
      let p := padvance p
      let (t, p) ← parseUnary f p
      .ok (.currentE t, p)
    else if pmatch p [.AWAIT] then do
      let p := padvance p
      let (t, p) ← parseUnary f p
      .ok (.awaitE t, p)
    else parsePostfixChain f p

/-- `parse_postfix` entry: primary expression plus its postfix operations. -/
def parsePostfixChain : Nat → PState → Except String (Expr × PState)
  | 0, _ => .error ("parser fuel exhausted")
  | f + 1, p => do
    let (e, p) ← parsePrimary f p
    parsePostfixLoop f p e

/-- The `while True` loop of `parse_postfix` (member access, indexing, call). -/
def parsePostfixLoop : Nat → PState → Expr → Except String (Expr × PState)
  | 0, _, _ => .error ("parser fuel exhausted")
  | f + 1, p, e =>
    if pmatch p [.DOT] then do
      let p := padvance p
      let (propTok, p) ← consume p .IDENTIFIER ("Expected property name after '.'")
      parsePostfixLoop f p (.member e propTok.value)
    else if pmatch p [.LBRACKET] then do
      let p := padvance p
      let (idx, p) ← parseExpression f p
      let (_, p) ← consume p .RBRACKET ("Expected ']' after array index")
      parsePostfixLoop f p (.arrayAccess e idx)
    else if pmatch p [.LPAREN] then do
      let p := padvance p
      let (args, p) ← parseCallArgs f p []
      let (_, p) ← consume p .RPAREN ("Expected ')' after function arguments")
      parsePostfixLoop f p (.call e args)
    else .ok (e, p)

/-- Argument-list loop shared by calls and `new` expressions. -/
def parseCallArgs : Nat → PState → List Expr → Except String (List Expr × PState)
  | 0, _, _ => .error ("parser fuel exhausted")
  | f + 1, p, acc =>
    if pmatch p [.RPAREN] then .ok (acc, p)
    else do
      let p ← if acc.isEmpty then pure p
        else do
          let (_, p') ← consume p .COMMA ("Expected ',' between arguments")
          pure p'
      let (e, p) ← parseExpression f p
      parseCallArgs f p (acc ++ [e])

/-- Array-literal element loop of `parse_primary`. -/
def parseArrayElems : Nat → PState → List Expr → Except String (List Expr × PState)
  | 0, _, _ => .error ("parser fuel exhausted")
  | f + 1, p, acc =>
    if pmatch p [.RBRACKET] then .ok (acc, p)
    else do
      let p ← if acc.isEmpty then pure p
        else do
          let (_, p') ← consume p .COMMA ("Expected ',' between array elements")
          pure p'
      let (e, p) ← parseExpression f p
      parseArrayElems f p (acc ++ [e])

/-- `parse_primary`. -/
def parsePrimary : Nat → PState → Except String (Expr × PState)
  | 0, _ => .error ("parser fuel exhausted")
  | f + 1, p =>
    if pmatch p [.NUMBER] then
      let v := (cur p).value
      let p := padvance p
      if v.data.contains ('/') then .ok (.numberLit (.nStr v), p)
      else if v.data.contains ('.') then
        match pyParseFloat v.data with
        | some q => .ok (.numberLit (.nFloat q), p)
        | none => .ok (.numberLit (.nStr v), p)
      else
        match pyParseInt v.data with
        | some i => .ok (.numberLit (.nInt i), p)
        | none => .ok (.numberLit (.nStr v), p)
    else if pmatch p [.STRING] then
      .ok (.stringLit (cur p).value, padvance p)
    else if pmatch p [.BOOLEAN] then
      .ok (.boolLit (strLower (cur p).value = ("true")), padvance p)
    else if pmatch p [.MAYBE] then .ok (.maybeLit, padvance p)
    else if pmatch p [.IDENTIFIER] then
      let name := (cur p).value
      let p := padvance p
      if name = ("undefined") then .ok (.undefinedLit, p)
      else if name = ("null") then .ok (.nullLit, p)
      else .ok (.ident name, p)
    else if pmatch p [.LBRACKET] then do
      let p := padvance p
      let (elems, p) ← parseArrayElems f p []
      let (_, p) ← consume p .RBRACKET ("Expected ']' after array elements")
      .ok (.arrayLit elems, p)
    else if pmatch p [.LPAREN] then do
      let p := padvance p
      let (e, p) ← parseExpression f p
      let (_, p) ← consume p .RPAREN ("Expected ')' after expression")
      .ok (e, p)
    else if pmatch p [.USE] then do
      let p := padvance p
      let (_, p) ← consume p .LPAREN ("Expected '(' after 'use'")
      let (e, p) ← parseExpression f p
      let (_, p) ← consume p .RPAREN ("Expected ')' after use argument")
      .ok (.useE e, p)
    else if pmatch p [.NEW] then do
      let p := padvance p
      let (cnTok, p) ← consume p .IDENTIFIER ("Expected class name after 'new'")
      let (_, p) ← consume p .LPAREN ("Expected '(' after class name")
      let (args, p) ← parseCallArgs f p []
      let (_, p) ← consume p .RPAREN ("Expected ')' after new arguments")
      .ok (.newE cnTok.value args, p)
    else if pmatch p [.PRINT] then .ok (.ident ("print"), padvance p)
    else if pmatch p [.INCREMENT] then do
      let p := padvance p
      let (t, p) ← parsePrimary f p
      .ok (.increment t true, p)
    else if pmatch p [.DECREMENT] then do
      let p := padvance p
      let (t, p) ← parsePrimary f p
      .ok (.decrement t true, p)
    else .error (parseErrFmt ("Unexpected token") (cur p))

end

/-- `parse_dreamberd`: tokenize then parse. -/
def parseDreamBerd (source : String) : Except String ProgramAst := do
  let toks := tokenize source
  let (stmts, _) ← parseTopLoop ((toks.length + 1) * 100) ⟨toks, 0⟩ []
  .ok ⟨stmts⟩

/-! ## Runtime values and interpreter state (`src/dreamberd_interpreter.py`) -/

/-- A stored `FunctionDeclaration` node. -/
structure FuncData where
  keyword : String
  name : String
  params : List String
  body : FuncBody
  isAsync : Bool

/-- A stored `ClassDeclaration` node. -/
structure ClassData where
  keyword : String
  name : String
  body : List Stmt

/-- Runtime values.  Python list objects and signal cells live on explicit
heaps (`vArr`/`vSignal` are references), and each executed function
declaration stores its node at a fresh index (`vFunc`), so Python object
identity is preserved for mutable/compound values. -/
inductive Value where
  | vInt (i : Int)
  | vFloat (q : ℚ)
  | vStr (s : String)
  | vBool (b : Bool)
  | vNone
  | vMaybe
  | vArr (r : Nat)
  | vSignal (r : Nat)
  | vPrint
  | vDate
  | vFunc (r : Nat)
  | vInst (fields : List (String × Value))

/-- `DreamBerdValue`: wrapper with deletion flag, optional expiry and the
append-only value history. -/
structure DBValue where
  value : Value
  deleted : Bool
  lifetime : Option ℚ
  history : List Value
  priority : Option Int

/-- `DreamBerdValue.__init__` (the `priority` attribute is only attached by
`visit_VariableDeclaration`, hence `none` here). -/
def mkDBValue (v : Value) : DBValue := ⟨v, false, none, [v], none⟩

/-- `DreamBerdValue.set_value`. -/
def DBValue.setValue (w : DBValue) (x : Value) : DBValue :=
  { w with history := w.history ++ [x], value := x }

/-- `DreamBerdValue.get_previous`. -/
def DBValue.getPrevious (w : DBValue) : Value :=
  if 2 ≤ w.history.length then w.history.getD (w.history.length - 2) w.value
  else w.value

/-- `DreamBerdValue.is_expired` (the wall clock is a state field `now`). -/
def DBValue.isExpired (now : ℚ) (w : DBValue) : Bool :=
  match w.lifetime with
  | some t => qLt t now
  | none => false

/-- One scope: a Python dict from names to wrappers (insertion-ordered). -/
abbrev Scope := List (String × DBValue)

def scopeGet (s : Scope) (n : String) : Option DBValue := List.lookup n s

def scopeHas (s : Scope) (n : String) : Bool := (List.lookup n s).isSome

/-- Dict assignment: replace in place, else append. -/
def scopeSet (s : Scope) (n : String) (v : DBValue) : Scope :=
  match s with
  | [] => [(n, v)]
  | (k, w) :: rest => if k = n then (k, v) :: rest else (k, w) :: scopeSet rest n v

/-- Apply `f` to the wrapper bound to `n` (models in-place mutation of the
shared `DreamBerdValue` object). -/
def scopeMap (s : Scope) (n : String) (f : DBValue → DBValue) : Scope :=
  match s with
  | [] => []
  | (k, w) :: rest => if k = n then (k, f w) :: rest else (k, w) :: scopeMap rest n f

/-- Dict `del`. -/
def scopeErase (s : Scope) (n : String) : Scope :=
  match s with
  | [] => []
  | (k, w) :: rest => if k = n then rest else (k, w) :: scopeErase rest n

/-- The interpreter object's mutable state.  `locals` are the scopes pushed
above the global scope, innermost first (`scope_stack` reversed, without its
bottom element `globals`). -/
structure InterpState where
  locals : List Scope
  globals : Scope
  heap : List (List Value)
  sigs : List Value
  funcNodes : List FuncData
  functions : List (String × Nat)
  classes : List (String × ClassData)
  classInstances : List (String × List (String × Value))
  deletedValues : List Value
  reversedFlag : Bool
  output : List String
  immutableGlobals : List String
  now : ℚ
  maybeChoice : Bool

/-- `_init_builtins`: `print`, `Date`, and the number-name variables. -/
def builtinGlobals : Scope :=
  [(("print"), mkDBValue .vPrint), (("Date"), mkDBValue .vDate),
   (("zero"), mkDBValue (.vInt 0)), (("one"), mkDBValue (.vInt 1)),
   (("two"), mkDBValue (.vInt 2)), (("three"), mkDBValue (.vInt 3)),
   (("four"), mkDBValue (.vInt 4)), (("five"), mkDBValue (.vInt 5)),
   (("six"), mkDBValue (.vInt 6)), (("seven"), mkDBValue (.vInt 7)),
   (("eight"), mkDBValue (.vInt 8)), (("nine"), mkDBValue (.vInt 9)),
   (("ten"), mkDBValue (.vInt 10)), (("eleven"), mkDBValue (.vInt 11)),
   (("twelve"), mkDBValue (.vInt 12))]

/-- A fresh interpreter (`maybeChoice` stands in for the random draw used to
coerce `maybe` to a boolean; no claim depends on it). -/
def initState : InterpState :=
  ⟨[], builtinGlobals, [], [], [], [], [], [], [], false, [], [], qZero, false⟩

/-- The eviction walk of `get_variable`: expired bindings encountered on the
way are deleted from their scope and the walk continues outward; the walk
stops at the first live binding. -/
def evictFindScopes (now : ℚ) (n : String) : List Scope → (List Scope × Option DBValue)
  | [] => ([], none)
  | s :: rest =>
    match List.lookup n s with
    | some w =>
      if DBValue.isExpired now w then
        let (rest', res) := evictFindScopes now n rest
        (scopeErase s n :: rest', res)
      else (s :: rest, some w)
    | none =>
      let (rest', res) := evictFindScopes now n rest
      (s :: rest', res)

/-- `get_variable`: innermost-first walk over `locals` then the global scope,
with lazy eviction; deleted bindings and missing names raise. -/
def getVariable (st : InterpState) (n : String) : InterpState × Except String DBValue :=
  match evictFindScopes st.now n st.locals with
  | (locals', some w) =>
    let st' := { st with locals := locals' }
    if w.deleted then (st', .error (("Variable '") ++ n ++ ("' has been deleted")))
    else (st', .ok w)
  | (locals', none) =>
    match List.lookup n st.globals with
    | some w =>
      if DBValue.isExpired st.now w then
        ({ st with locals := locals', globals := scopeErase st.globals n },
         .error (("Undefined variable: ") ++ n))
      else if w.deleted then
        ({ st with locals := locals' }, .error (("Variable '") ++ n ++ ("' has been deleted")))
      else ({ st with locals := locals' }, .ok w)
    | none => ({ st with locals := locals' }, .error (("Undefined variable: ") ++ n))

/-- Apply `f` to the first scope (innermost first) binding `n`. -/
def updateFirstScopes (n : String) (f : DBValue → DBValue) : List Scope → (List Scope × Bool)
  | [] => ([], false)
  | s :: rest =>
    if scopeHas s n then (scopeMap s n f :: rest, true)
    else
      let (rest', b) := updateFirstScopes n f rest
      (s :: rest', b)

/-- Mutate the wrapper that a successful `get_variable` just returned (the
Python code mutates the shared object in place; after the eviction pass the
first occurrence of `n` in the chain is that wrapper). -/
def modifyFoundVar (st : InterpState) (n : String) (f : DBValue → DBValue) : InterpState :=
  match updateFirstScopes n f st.locals with
  | (locals', true) => { st with locals := locals' }
  | (_, false) => { st with globals := scopeMap st.globals n f }

/-- Store into the current (innermost) scope; with no pushed scope the
current scope is the global one. -/
def setCurrentScope (st : InterpState) (n : String) (v : DBValue) : InterpState :=
  match st.locals with
  | [] => { st with globals := scopeSet st.globals n v }
  | s :: rest => { st with locals := scopeSet s n v :: rest }

/-- `set_variable`: `create_new` stores into the current scope; otherwise the
nearest existing binding anywhere in the chain (no expiry or deletion checks)
is updated in place through `set_value`, falling back to creating in the
current scope. -/
def setVariable (st : InterpState) (n : String) (v : DBValue) (createNew : Bool) : InterpState :=
  if createNew then setCurrentScope st n v
  else
    match updateFirstScopes n (fun w => w.setValue v.value) st.locals with
    | (locals', true) => { st with locals := locals' }
    | (_, false) =>
      if scopeHas st.globals n then
        { st with globals := scopeMap st.globals n (fun w => w.setValue v.value) }
      else setCurrentScope st n v

def pushScope (st : InterpState) (s : Scope) : InterpState :=
  { st with locals := s :: st.locals }

/-- `pop_scope` never pops the global scope. -/
def popScope (st : InterpState) : InterpState :=
  match st.locals with
  | [] => st
  | _ :: rest => { st with locals := rest }

/-- `parse_lifetime`.  The negative-lifetime and malformed-suffix paths that
would raise `ValueError` in Python are unreachable from the parser (a
lifetime annotation is always a single `IDENTIFIER` token) and are modelled
as `none`. -/
def parseLifetime (now : ℚ) (s : String) : Option ℚ :=
  let cs := s.data
  if strLower s = ("infinity") then none
  else
    match cs with
    | ('-') :: ds => (pyParseInt ds).map (fun n => qAdd now (qInt n))
    | _ =>
      if cs.getLast? = some ('s') then (pyParseFloat cs.dropLast).map (fun q => qAdd now q)
      else if cs.getLast? = some ('m') then (pyParseFloat cs.dropLast).map (fun q => qAdd now (qMul q (qInt 60)))
      else if cs.getLast? = some ('h') then (pyParseFloat cs.dropLast).map (fun q => qAdd now (qMul q (qInt 3600)))
      else
        match pyParseInt cs with
        | some n => some (qAdd now (qInt n))
        | none => none

/-! ## Python value semantics used by the evaluator -/

/-- A Python number: `(is-float, exact value)`; `bool` is an `int` subclass. -/
def toNum : Value → Option (Bool × ℚ)
  | .vInt i => some (false, qInt i)
  | .vFloat q => some (true, q)
  | .vBool b => some (false, if b then qInt 1 else qZero)
  | _ => none

/-- `type(x).__name__`. -/
def pyTypeName : Value → String
  | .vInt _ => ("int")
  | .vFloat _ => ("float")
  | .vStr _ => ("str")
  | .vBool _ => ("bool")
  | .vNone => ("NoneType")
  | .vMaybe => ("Maybe")
  | .vArr _ => ("list")
  | .vSignal _ => ("function")
  | .vPrint => ("function")
  | .vDate => ("DateObject")
  | .vFunc _ => ("FunctionDeclaration")
  | .vInst _ => ("dict")

/-- Python `==`.  Numbers compare across `int`/`float`/`bool`; lists compare
elementwise through the heap (fuel bounds the reference depth — heaps built
by the interpreter are acyclic, with depth at most the heap size); objects
without value equality compare by identity. -/
def pyEq : Nat → List (List Value) → Value → Value → Bool
  | 0, _, _, _ => false
  | f + 1, h, a, b =>
    match toNum a, toNum b with
    | some (_, qa), some (_, qb) => qa == qb
    | _, _ =>
      match a, b with
      | .vStr s, .vStr t => s == t
      | .vNone, .vNone => true
      | .vMaybe, .vMaybe => false
      | .vArr r1, .vArr r2 =>
        if r1 == r2 then true
        else
          let xs := h.getD r1 []
          let ys := h.getD r2 []
          xs.length == ys.length && (xs.zip ys).all (fun p => pyEq f h p.1 p.2)
      | .vInst fs, .vInst gs =>
        fs.length == gs.length &&
          (fs.zip gs).all (fun p => p.1.1 == p.2.1 && pyEq f h p.1.2 p.2.2)
      | .vSignal r1, .vSignal r2 => r1 == r2
      | .vPrint, .vPrint => true
      | .vDate, .vDate => true
      | .vFunc i, .vFunc j => i == j
      | _, _ => false

/-- Python `is`.  Scalars follow the spec's documented convention (CPython
interns equal literals within one compiled unit, so scalar identity
degenerates to value equality per category); compound values compare by
storage reference; fresh `Maybe()` objects and instance records are distinct
objects. -/
def pyIs : Value → Value → Bool
  | .vInt i, .vInt j => i == j
  | .vFloat p, .vFloat q => p == q
  | .vStr s, .vStr t => s == t
  | .vBool a, .vBool b => a == b
  | .vNone, .vNone => true
  | .vMaybe, .vMaybe => false
  | .vArr r1, .vArr r2 => r1 == r2
  | .vSignal r1, .vSignal r2 => r1 == r2
  | .vPrint, .vPrint => true
  | .vDate, .vDate => true
  | .vFunc i, .vFunc j => i == j
  | .vInst _, .vInst _ => false
  | _, _ => false

/-- Python `str`/`repr` (the Boolean selects `repr`, used inside list
renderings).  Builtin-object reprs are placeholders — no claim prints them. -/
def pyStr : Nat → List (List Value) → Bool → Value → String
  | _, _, rmode, .vStr s => if rmode then ("'") ++ s ++ ("'") else s
  | _, _, _, .vInt i => toString i
  | _, _, _, .vFloat q => pyStrFloat q
  | _, _, _, .vBool b => if b then ("True") else ("False")
  | _, _, _, .vNone => ("None")
  | _, _, _, .vMaybe => ("maybe")
  | 0, _, _, .vArr _ => ("[...]")
  | f + 1, h, _, .vArr r =>
    ("[") ++ joinSep (", ") ((h.getD r []).map (pyStr f h true)) ++ ("]")
  | _, _, _, .vSignal _ => ("<function signal>")
  | _, _, _, .vPrint => ("<built-in print>")
  | _, _, _, .vDate => ("<DateObject>")
  | _, _, _, .vFunc _ => ("<FunctionDeclaration>")
  | _, _, _, .vInst _ => ("\x7b...\x7d")

/-- Python truthiness (`maybe` draws from the state's fixed coin, standing in
for `random.choice`). -/
def pyTruthy (h : List (List Value)) (maybeChoice : Bool) : Value → Bool
  | .vBool b => b
  | .vInt i => i != 0
  | .vFloat q => !(q == qZero)
  | .vStr s => s != ("")
  | .vNone => false
  | .vMaybe => maybeChoice
  | .vArr r => !(h.getD r []).isEmpty
  | .vInst fs => !fs.isEmpty
  | _ => true

/-- Membership in the poisoned-literal set (`in` uses `==`). -/
def pyMember (h : List (List Value)) (vs : List Value) (v : Value) : Bool :=
  vs.any (fun x => pyEq (h.length + 1) h v x)

/-- Result category of a binary numeric operation. -/
def numResult (fa fb : Bool) (q : ℚ) : Value :=
  if fa || fb then .vFloat q else .vInt q.num

/-- Fraction-string conversion at the top of `evaluate_arithmetic`
(`float(parts[0]) / float(parts[1])`; a zero denominator raises
`ZeroDivisionError`). -/
def fracConv (v : Value) : Except String Value :=
  match v with
  | .vStr s =>
    if s.data.contains ('/') then
      match charSplit ('/') s.data with
      | p0 :: p1 :: _ =>
        match pyParseFloat p0, pyParseFloat p1 with
        | some a, some b =>
          if b == qZero then .error ("float division by zero")
          else .ok (.vFloat (qDiv a b))
        | _, _ => .error ("could not convert string to float")
      | _ => .ok v
    else .ok v
  | _ => .ok v

/-- Python `x == 0` for the division-by-zero test. -/
def pyIsZero (v : Value) : Bool :=
  match toNum v with
  | some (_, q) => q == qZero
  | none => false

/-- List insertion (`list.insert` with an index inside `[0, len]`). -/
def listInsert (xs : List Value) (n : Nat) (v : Value) : List Value :=
  xs.take n ++ v :: xs.drop n

def heapSet (h : List (List Value)) (r : Nat) (xs : List Value) : List (List Value) :=
  h.set r xs

/-- Python `+` on the value categories DreamBerd programs produce. -/
def pyAdd (st : InterpState) (a b : Value) : Except String (Value × InterpState) :=
  match toNum a, toNum b with
  | some (fa, qa), some (fb, qb) => .ok (numResult fa fb (qAdd qa qb), st)
  | _, _ =>
    match a, b with
    | .vStr s, .vStr t => .ok (.vStr (s ++ t), st)
    | .vArr r1, .vArr r2 =>
      let xs := st.heap.getD r1 []
      let ys := st.heap.getD r2 []
      .ok (.vArr st.heap.length, { st with heap := st.heap ++ [xs ++ ys] })
    | _, _ => .error ("unsupported operand type(s) for +")

def pySub (st : InterpState) (a b : Value) : Except String (Value × InterpState) :=
  match toNum a, toNum b with
  | some (fa, qa), some (fb, qb) => .ok (numResult fa fb (qSub qa qb), st)
  | _, _ => .error ("unsupported operand type(s) for -")

/-- Python `*` (numbers, and string/list replication by an integer). -/
def pyMul (st : InterpState) (a b : Value) : Except String (Value × InterpState) :=
  match toNum a, toNum b with
  | some (fa, qa), some (fb, qb) => .ok (numResult fa fb (qMul qa qb), st)
  | _, _ =>
    match a, b with
    | .vStr s, .vInt n => .ok (.vStr (joinSep ("") (List.replicate n.toNat s)), st)
    | .vInt n, .vStr s => .ok (.vStr (joinSep ("") (List.replicate n.toNat s)), st)
    | .vArr r, .vInt n =>
      let xs := st.heap.getD r []
      .ok (.vArr st.heap.length, { st with heap := st.heap ++ [(List.replicate n.toNat xs).flatten] })
    | .vInt n, .vArr r =>
      let xs := st.heap.getD r []
      .ok (.vArr st.heap.length, { st with heap := st.heap ++ [(List.replicate n.toNat xs).flatten] })
    | _, _ => .error ("unsupported operand type(s) for *")

/-- Python `/` (true division; the caller has already dispatched the
zero-divisor case to the `"undefined"` sentinel). -/
def pyDiv (st : InterpState) (a b : Value) : Except String (Value × InterpState) :=
  match toNum a, toNum b with
  | some (_, qa), some (_, qb) => .ok (.vFloat (qDiv qa qb), st)
  | _, _ => .error ("unsupported operand type(s) for /")

/-- Python `**`.  A non-integral float exponent would produce an irrational
number and is outside the `ℚ` model (no DreamBerd claim exercises it). -/
def pyPow (st : InterpState) (a b : Value) : Except String (Value × InterpState) :=
  match toNum a, toNum b with
  | some (fa, qa), some (fb, qb) =>
    if qb.den = 1 then
      let e := qb.num
      if 0 ≤ e then .ok (numResult fa fb (qpowNat qa e.toNat), st)
      else if qa == qZero then .error ("zero cannot be raised to a negative power")
      else .ok (.vFloat (qDiv (qInt 1) (qpowNat qa (-e).toNat)), st)
    else .error ("non-integral float exponent is not modelled")
  | _, _ => .error ("unsupported operand type(s) for ** or pow()")

/-- Python `%` (floored modulo, sign of the divisor). -/
def pyMod (st : InterpState) (a b : Value) : Except String (Value × InterpState) :=
  match toNum a, toNum b with
  | some (fa, qa), some (fb, qb) =>
    if qb == qZero then .error ("integer division or modulo by zero")
    else .ok (numResult fa fb (qSub qa (qMul qb (qInt (ratFloor (qDiv qa qb))))), st)
  | _, _ => .error ("unsupported operand type(s) for %")

/-- `evaluate_arithmetic`: poisoned-value check, fraction-string conversion,
the division-by-zero sentinel, then the operator dispatch (an unknown
operator yields Python `None`). -/
def evalArithmetic (st : InterpState) (l0 : Value) (op : String) (r0 : Value) :
    Except String (Value × InterpState) :=
  if pyMember st.heap st.deletedValues l0 || pyMember st.heap st.deletedValues r0 then
    .error ("Cannot perform arithmetic on deleted values")
  else
    match fracConv l0 with
    | .error e => .error e
    | .ok l =>
      match fracConv r0 with
      | .error e => .error e
      | .ok r =>
        if op = ("/") ∧ pyIsZero r then .ok (.vStr ("undefined"), st)
        else if op = ("+") then pyAdd st l r
        else if op = ("-") then pySub st l r
        else if op = ("*") then pyMul st l r
        else if op = ("/") then pyDiv st l r
        else if op = ("^") then pyPow st l r
        else if op = ("%") then pyMod st l r
        else .ok (.vNone, st)

/-- Numeric / string ordering for `<`, `>`, `<=`, `>=`. -/
def pyOrder (l r : Value) : Except String Ordering :=
  match toNum l, toNum r with
  | some (_, qa), some (_, qb) =>
    .ok (if qLt qa qb then Ordering.lt else if qa == qb then Ordering.eq else Ordering.gt)
  | _, _ =>
    match l, r with
    | .vStr s, .vStr t =>
      .ok (if s < t then Ordering.lt else if s == t then Ordering.eq else Ordering.gt)
    | _, _ => .error ("unorderable operand types")

/-- `evaluate_comparison`: the five-level equality ladder plus the ordering
operators (an unknown operator yields `False`).  The `=` tolerance `0.5` is
an exact binary float, so the `ℚ` model is faithful here. -/
def evalComparison (h : List (List Value)) (l : Value) (op : String) (r : Value) :
    Except String Value :=
  if op = ("=") then
    match toNum l, toNum r with
    | some (_, qa), some (_, qb) => .ok (.vBool (qLt (pyAbs (qSub qa qb)) (Rat.divInt 1 2)))
    | _, _ => .error ("unsupported operand type(s) for -")
  else if op = ("==") then
    .ok (.vBool (pyStr (h.length + 1) h false l == pyStr (h.length + 1) h false r))
  else if op = ("===") then
    .ok (.vBool (pyEq (h.length + 1) h l r && pyTypeName l == pyTypeName r))
  else if op = ("====") then .ok (.vBool (pyIs l r))
  else if op = ("!=") then .ok (.vBool (!pyEq (h.length + 1) h l r))
  else if op = ("<") then (pyOrder l r).map (fun o => .vBool (o == Ordering.lt))
  else if op = (">") then (pyOrder l r).map (fun o => .vBool (o == Ordering.gt))
  else if op = ("<=") then (pyOrder l r).map (fun o => .vBool (o != Ordering.gt))
  else if op = (">=") then (pyOrder l r).map (fun o => .vBool (o != Ordering.lt))
  else .ok (.vBool false)

/-- `visit_IncrementExpression`: legal only on a plain variable whose current
value is numeric (`bool` included, being a Python `int`).  The prefix form
mutates first and yields the new value; the postfix form yields the old value
and then mutates.  Both push the new value onto the wrapper's history via
`set_value`. -/
def evalIncrementExpr (st : InterpState) (target : Expr) (pre : Bool) :
    Except String (Value × InterpState) :=
  match target with
  | .ident n =>
    let (st1, res) := getVariable st n
    match res with
    | .error e => .error e
    | .ok w =>
      match toNum w.value with
      | some (isF, q) =>
        let nv : Value := if isF then .vFloat (qAdd q (qInt 1)) else .vInt (q.num + 1)
        let st2 := modifyFoundVar st1 n (fun w' => w'.setValue nv)
        if pre then .ok (nv, st2) else .ok (w.value, st2)
      | none => .error (("Cannot increment non-numeric value: ") ++ pyTypeName w.value)
  | _ => .error ("Can only increment variables")

/-- `visit_DecrementExpression` (mirror image of increment). -/
def evalDecrementExpr (st : InterpState) (target : Expr) (pre : Bool) :
    Except String (Value × InterpState) :=
  match target with
  | .ident n =>
    let (st1, res) := getVariable st n
    match res with
    | .error e => .error e
    | .ok w =>
      match toNum w.value with
      | some (isF, q) =>
        let nv : Value := if isF then .vFloat (qSub q (qInt 1)) else .vInt (q.num - 1)
        let st2 := modifyFoundVar st1 n (fun w' => w'.setValue nv)
        if pre then .ok (nv, st2) else .ok (w.value, st2)
      | none => .error (("Cannot decrement non-numeric value: ") ++ pyTypeName w.value)
  | _ => .error ("Can only decrement variables")

def assocSet {β : Type} (l : List (String × β)) (k : String) (v : β) : List (String × β) :=
  match l with
  | [] => [(k, v)]
  | (k', w) :: rest => if k' = k then (k', v) :: rest else (k', w) :: assocSet rest k v

def comparisonOps : List String :=
  [("="), ("=="), ("==="), ("===="), ("!="), ("<"), (">"), ("<="), (">=")]

def dummyFunc : FuncData := ⟨("function"), (""), [], .block [], false⟩

/-- Positional parameter binding of `call_function` (surplus parameters stay
unbound, surplus arguments are dropped). -/
def bindParams : List String → List Value → Scope
  | [], _ => []
  | _ :: _, [] => []
  | pn :: ps, a :: rest => (pn, mkDBValue a) :: bindParams ps rest

mutual

/-- The expression side of the `visit_*` dispatch. -/
def evalExpr : Nat → InterpState → Expr → Except String (Value × InterpState)
  | 0, _, _ => .error ("evaluator fuel exhausted")
  | f + 1, st, e =>
    match e with
    | .numberLit (.nInt i) => .ok (.vInt i, st)
    | .numberLit (.nFloat q) => .ok (.vFloat q, st)
    | .numberLit (.nStr s) =>
      -- `visit_NumberLiteral`: a fraction-encoded literal divides eagerly;
      -- a zero denominator raises ZeroDivisionError
      if s.data.contains ('/') then
        match charSplit ('/') s.data with
        | p0 :: p1 :: _ =>
          match pyParseFloat p0, pyParseFloat p1 with
          | some a, some b =>
            if b == qZero then .error ("float division by zero")
            else .ok (.vFloat (qDiv a b), st)
          | _, _ => .error ("could not convert string to float")
        | _ => .ok (.vStr s, st)
      else .ok (.vStr s, st)
    | .stringLit s => .ok (.vStr s, st)
    | .boolLit b => .ok (.vBool b, st)
    | .maybeLit => .ok (.vMaybe, st)
    | .undefinedLit => .ok (.vStr ("undefined"), st)
    | .nullLit => .ok (.vNone, st)
    | .ident n =>
      let (st1, res) := getVariable st n
      match res with
      | .ok w => .ok (w.value, st1)
      | .error err => .error err
    | .arrayLit elems =>
      match evalExprList f st elems with
      | .error err => .error err
      | .ok (vs, st1) => .ok (.vArr st1.heap.length, { st1 with heap := st1.heap ++ [vs] })
    | .arrayAccess aexp iexp =>
      match evalExpr f st aexp with
      | .error err => .error err
      | .ok (av, st1) =>
        match evalExpr f st1 iexp with
        | .error err => .error err
        | .ok (iv, st2) =>
          match av with
          | .vArr r =>
            let xs := st2.heap.getD r []
            match iv with
            | .vInt i =>
              let di := i + 1
              if 0 ≤ di ∧ di < (xs.length : Int) then .ok (xs.getD di.toNat .vNone, st2)
              else .error ("Array index out of bounds")
            | .vBool b =>
              let di := (if b then (1 : Int) else 0) + 1
              if 0 ≤ di ∧ di < (xs.length : Int) then .ok (xs.getD di.toNat .vNone, st2)
              else .error ("Array index out of bounds")
            | .vFloat q =>
              let bi := pyTrunc q + 1
              if 0 ≤ bi ∧ bi < (xs.length : Int) then .ok (xs.getD bi.toNat .vNone, st2)
              else .error ("Array index out of bounds")
            | _ => .error ("Array index out of bounds")
          | _ => .error ("Can only index arrays")
    | .binOp le op re =>
      match evalExpr f st le with
      | .error err => .error err
      | .ok (l, st1) =>
        match evalExpr f st1 re with
        | .error err => .error err
        | .ok (r, st2) =>
          if op = ("&&") then
            .ok (if pyTruthy st2.heap st2.maybeChoice l then r else l, st2)
          else if op = ("||") then
            .ok (if pyTruthy st2.heap st2.maybeChoice l then l else r, st2)
          else if comparisonOps.contains op then
            match evalComparison st2.heap l op r with
            | .ok v => .ok (v, st2)
            | .error err => .error err
          else evalArithmetic st2 l op r
    | .unOp op oe =>
      match evalExpr f st oe with
      | .error err => .error err
      | .ok (v, st1) =>
        if op = (";") then .ok (.vBool (!pyTruthy st1.heap st1.maybeChoice v), st1)
        else if op = ("-") then
          match toNum v with
          | some (isF, q) => .ok (if isF then .vFloat (-q) else .vInt (-q.num), st1)
          | none => .error ("bad operand type for unary -")
        else if op = ("+") then
          match toNum v with
          | some (isF, q) => .ok (if isF then .vFloat q else .vInt q.num, st1)
          | none => .error ("bad operand type for unary +")
        else .ok (v, st1)
    | .assign target vexp =>
      match evalExpr f st vexp with
      | .error err => .error err
      | .ok (value, st1) =>
        match target with
        | .ident n => .ok (value, setVariable st1 n (mkDBValue value) false)
        | .arrayAccess aexp iexp =>
          match evalExpr f st1 aexp with
          | .error err => .error err
          | .ok (av, st2) =>
            match evalExpr f st2 iexp with
            | .error err => .error err
            | .ok (iv, st3) =>
              match av with
              | .vArr r =>
                let xs := st3.heap.getD r []
                match iv with
                | .vFloat q =>
                  -- float index: insertion; out-of-range inserts are skipped
                  let pos := pyTrunc q + 1
                  if 0 ≤ pos ∧ pos ≤ (xs.length : Int) then
                    .ok (value, { st3 with heap := heapSet st3.heap r (listInsert xs pos.toNat value) })
                  else .ok (value, st3)
                | .vInt i =>
                  -- integer index: overwrite; out-of-range writes silently do nothing
                  let di := i + 1
                  if 0 ≤ di ∧ di < (xs.length : Int) then
                    .ok (value, { st3 with heap := heapSet st3.heap r (xs.set di.toNat value) })
                  else .ok (value, st3)
                | .vBool b =>
                  let di := (if b then (1 : Int) else 0) + 1
                  if 0 ≤ di ∧ di < (xs.length : Int) then
                    .ok (value, { st3 with heap := heapSet st3.heap r (xs.set di.toNat value) })
                  else .ok (value, st3)
                | _ => .error ("unsupported index type")
              | _ => .error ("object does not support item assignment")
        | _ => .error ("Invalid assignment target")
    | .increment t pre => evalIncrementExpr st t pre
    | .decrement t pre => evalDecrementExpr st t pre
    | .call fnExpr args =>
      match fnExpr with
      | .ident fname =>
        let (st1, res) := getVariable st fname
        match res with
        | .error _ => .error (("Undefined function: ") ++ fname)
        | .ok w =>
          match evalExprList f st1 args with
          | .error err => .error err
          | .ok (argv, st2) =>
            match w.value with
            | .vPrint =>
              let line :=
                joinSep (" ") (argv.map (pyStr (st2.heap.length + 1) st2.heap false))
              .ok (.vNone, { st2 with output := st2.output ++ [line] })
            | .vSignal r =>
              match argv with
              | [] => .ok (st2.sigs.getD r .vNone, st2)
              | x :: _ => .ok (x, { st2 with sigs := st2.sigs.set r x })
            | .vFunc idx => callFunction f st2 (st2.funcNodes.getD idx dummyFunc) argv
            | _ => .error ("Invalid function call")
      | _ => .error ("Invalid function call")
    | .member oexp prop =>
      match evalExpr f st oexp with
      | .error err => .error err
      | .ok (ov, st1) =>
        match ov with
        | .vDate =>
          -- `hasattr` + call: the only builtin attribute the programs reach
          if prop = ("now") then .ok (.vFloat (qMul st1.now (qInt 1000)), st1)
          else .error (("Property '") ++ prop ++ ("' not found"))
        | _ => .error (("Property '") ++ prop ++ ("' not found"))
    | .methodCall _ _ _ => .error ("No visitor for MethodCall")
    | .previousE t =>
      match t with
      | .ident n =>
        let (st1, res) := getVariable st n
        match res with
        | .ok w => .ok (w.getPrevious, st1)
        | .error err => .error err
      | _ => .error ("Previous can only be used with variables")
    | .nextE _ => .error ("No visitor for NextExpression")
    | .currentE t => evalExpr f st t
    | .useE ie =>
      match evalExpr f st ie with
      | .error err => .error err
      | .ok (iv, st1) => .ok (.vSignal st1.sigs.length, { st1 with sigs := st1.sigs ++ [iv] })
    | .newE cname _ =>
      -- `visit_NewExpression` never evaluates or binds the constructor args
      match List.lookup cname st.classes with
      | none => .error (("Undefined class: ") ++ cname)
      | some cd =>
        match List.lookup cname st.classInstances with
        | some _ => .error (("Can't have more than one '") ++ cname ++ ("' instance!"))
        | none =>
          match evalStmtSeq f (pushScope st []) cd.body .vNone with
          | .error err => .error err
          | .ok (_, st2) =>
            let fields := (st2.locals.headD []).map (fun p => (p.1, p.2.value))
            let st3 := popScope st2
            .ok (.vInst fields,
                 { st3 with classInstances := st3.classInstances ++ [(cname, fields)] })
    | .awaitE _ => .error ("No visitor for AwaitExpression")
    | .stringInterp _ _ _ => .error ("No visitor for StringInterpolation")

def evalExprList : Nat → InterpState → List Expr → Except String (List Value × InterpState)
  | 0, _, _ => .error ("evaluator fuel exhausted")
  | _ + 1, st, [] => .ok ([], st)
  | f + 1, st, e :: rest =>
    match evalExpr f st e with
    | .error err => .error err
    | .ok (v, st1) =>
      match evalExprList f st1 rest with
      | .error err => .error err
      | .ok (vs, st2) => .ok (v :: vs, st2)

/-- The statement side of the `visit_*` dispatch.  Statement kinds without a
`visit_*` handler in the Python class (`if`, `when`, `import`, `export`) fall
into `generic_visit` and raise. -/
def evalStmt : Nat → InterpState → Stmt → Except String (Value × InterpState)
  | 0, _, _ => .error ("evaluator fuel exhausted")
  | f + 1, st, s =>
    match s with
    | .varDecl _ _ name value lifetime priority _ =>
      let (st1, res) := getVariable st name
      let proceed : Bool :=
        match res with
        | .ok w =>
          match w.priority with
          | some p => decide (p < priority)
          | none => true
        | .error _ => true
      if proceed then
        match (match value with
               | some ve => evalExpr f st1 ve
               | none => .ok (Value.vNone, st1)) with
        | .error err => .error err
        | .ok (v, st2) =>
          let lt :=
            match lifetime with
            | some ls => parseLifetime st2.now ls
            | none => none
          let w : DBValue := ⟨v, false, lt, [v], some priority⟩
          .ok (.vNone, setVariable st2 name w true)
      else .ok (.vNone, st1)
    | .globalConstDecl name ve _ =>
      match evalExpr f st ve with
      | .error err => .error err
      | .ok (v, st1) =>
        let w := mkDBValue v
        let g := scopeSet (scopeSet st1.globals (("__global_const_") ++ name) w) name w
        let imm :=
          if st1.immutableGlobals.contains name then st1.immutableGlobals
          else st1.immutableGlobals ++ [name]
        .ok (.vNone, { st1 with globals := g, immutableGlobals := imm })
    | .funcDecl kw name params body isAsync =>
      let fd : FuncData := ⟨kw, name, params, body, isAsync⟩
      let idx := st.funcNodes.length
      let st1 := setVariable { st with funcNodes := st.funcNodes ++ [fd] }
                   name (mkDBValue (.vFunc idx)) true
      .ok (.vNone, { st1 with functions := assocSet st1.functions name idx })
    | .classDecl kw name body =>
      .ok (.vNone, { st with classes := assocSet st.classes name ⟨kw, name, body⟩ })
    | .printStmt ve dbg =>
      match evalExpr f st ve with
      | .error err => .error err
      | .ok (v, st1) =>
        let rendered := pyStr (st1.heap.length + 1) st1.heap false v
        let line :=
          if dbg then ("DEBUG: ") ++ rendered ++ (" (type: ") ++ pyTypeName v ++ (")")
          else rendered
        .ok (.vNone, { st1 with output := st1.output ++ [line] })
    | .exprStmt e _ dbg =>
      match evalExpr f st e with
      | .error err => .error err
      | .ok (v, st1) =>
        if dbg then
          let line := ("DEBUG: ") ++ pyStr (st1.heap.length + 1) st1.heap false v
                        ++ (" (type: ") ++ pyTypeName v ++ (")")
          .ok (v, { st1 with output := st1.output ++ [line] })
        else .ok (v, st1)
    | .returnStmt value =>
      match value with
      | some ve => evalExpr f st ve
      | none => .ok (.vNone, st)
    | .deleteStmt target =>
      match target with
      | .ident n =>
        let (st1, res) := getVariable st n
        match res with
        | .ok _ => .ok (.vNone, modifyFoundVar st1 n (fun w => { w with deleted := true }))
        | .error _ => .ok (.vNone, st1)
      | .numberLit nv =>
        match evalExpr f st (.numberLit nv) with
        | .error err => .error err
        | .ok (v, st1) =>
          let dv :=
            if pyMember st1.heap st1.deletedValues v then st1.deletedValues
            else st1.deletedValues ++ [v]
          .ok (.vNone, { st1 with deletedValues := dv })
      | _ => .ok (.vNone, st)
    | .reverseStmt => .ok (.vNone, { st with reversedFlag := !st.reversedFlag })
    | .noopStmt _ => .ok (.vNone, st)
    | .fileBlock _ body =>
      match evalStmtSeq f (pushScope st []) body .vNone with
      | .error err => .error err
      | .ok (r, st1) => .ok (r, popScope st1)
    | .ifStmt _ _ _ => .error ("No visitor for IfStatement")
    | .whenStmt _ _ => .error ("No visitor for WhenStatement")
    | .importStmt _ => .error ("No visitor for ImportStatement")
    | .exportStmt _ _ => .error ("No visitor for ExportStatement")

/-- Plain statement-list execution (`visit_Program` body / `visit_FileBlock`):
the running result is the last statement's value. -/
def evalStmtSeq : Nat → InterpState → List Stmt → Value → Except String (Value × InterpState)
  | 0, _, _, _ => .error ("evaluator fuel exhausted")
  | _ + 1, st, [], res => .ok (res, st)
  | f + 1, st, s :: rest, _ =>
    match evalStmt f st s with
    | .error err => .error err
    | .ok (r, st1) => evalStmtSeq f st1 rest r

/-- Block body of `call_function`: stops after directly executing a
top-level `return` statement of the body. -/
def callBody : Nat → InterpState → List Stmt → Value → Except String (Value × InterpState)
  | 0, _, _, _ => .error ("evaluator fuel exhausted")
  | _ + 1, st, [], res => .ok (res, st)
  | f + 1, st, s :: rest, _ =>
    match evalStmt f st s with
    | .error err => .error err
    | .ok (r, st1) =>
      match s with
      | .returnStmt _ => .ok (r, st1)
      | _ => callBody f st1 rest r

/-- `call_function`: fresh parameter scope, body execution, scope pop. -/
def callFunction : Nat → InterpState → FuncData → List Value → Except String (Value × InterpState)
  | 0, _, _, _ => .error ("evaluator fuel exhausted")
  | f + 1, st, fd, args =>
    let st1 := pushScope st (bindParams fd.params args)
    match fd.body with
    | .block stmts =>
      match callBody f st1 stmts .vNone with
      | .error err => .error err
      | .ok (r, st2) => .ok (r, popScope st2)
    | .expr e =>
      match evalExpr f st1 e with
      | .error err => .error err
      | .ok (r, st2) => .ok (r, popScope st2)

end

/-- `visit_Program`: the reversed-execution flag is consulted once, at entry,
before any statement of the program has run. -/
def interpretProgram (f : Nat) (st : InterpState) (p : ProgramAst) :
    Except String (Value × InterpState) :=
  let stmts := if st.reversedFlag then p.body.reverse else p.body
  evalStmtSeq f st stmts .vNone

/-- Evaluator fuel for whole-program runs (bounds recursion depth; ample for
the straight-line programs evaluated below). -/
def runFuel : Nat := 1000

/-- `DreamBerdInterpreter.interpret`: parse and evaluate on a fresh
interpreter, wrapping any failure. -/
def interpretSource (source : String) : Except String (Value × InterpState) :=
  match parseDreamBerd source with
  | .error e => .error (("Interpretation error: ") ++ e)
  | .ok prog =>
    match interpretProgram runFuel initState prog with
    | .error e => .error (("Interpretation error: ") ++ e)
    | .ok r => .ok r

/-- `run_dreamberd`: the retained output lines of a successful run. -/
def runDreamBerd (source : String) : Except String (List String) :=
  (interpretSource source).map (fun r => r.2.output)

/-- Final interpreter state of a successful run. -/
def runState (source : String) : Except String InterpState :=
  (interpretSource source).map (fun r => r.2)

/-! ## States used by the claim theorems -/

/-- A fresh interpreter with global `x` bound to an array `[xs]` stored at
heap reference 0. -/
def arrState (xs : List Value) : InterpState :=
  { initState with
      globals := scopeSet builtinGlobals ("x") (mkDBValue (.vArr 0)), heap := [xs] }

/-- A fresh interpreter with global `x` bound by a declaration of priority
`p` (value `v`, history `hist`). -/
def declState (v : Value) (hist : List Value) (p : Int) : InterpState :=
  { initState with globals := scopeSet builtinGlobals ("x") ⟨v, false, none, hist, some p⟩ }

/-- The state after a fresh declaration `x = k` of priority `q` replaced the
binding of `declState`. -/
def declResult (k q : Int) : InterpState :=
  { initState with
      globals := scopeSet builtinGlobals ("x") ⟨.vInt k, false, none, [.vInt k], some q⟩ }

/-- A fresh interpreter with global `x` freshly bound to the integer `i`. -/
def numState (i : Int) : InterpState :=
  { initState with globals := scopeSet builtinGlobals ("x") (mkDBValue (.vInt i)) }

/-- `numState i` after one increment of `x` (value `i+1`, history `[i, i+1]`). -/
def numStateInc (i : Int) : InterpState :=
  { initState with
      globals := scopeSet builtinGlobals ("x") ⟨.vInt (i + 1), false, none,
        [.vInt i, .vInt (i + 1)], none⟩ }

/-- A fresh interpreter with global `x` bound to a string. -/
def strState : InterpState :=
  { initState with globals := scopeSet builtinGlobals ("x") (mkDBValue (.vStr ("abc"))) }

/-! ## Claim theorems -/

/-- C1.  The claim — every division by a zero divisor yields the sentinel
string `"undefined"` without raising, and `print(1/0)!` emits `undefined` —
holds only for the binary `/` operator path (`evaluate_arithmetic`).  The
lexer folds `1/0` into one fraction-encoded number literal, and
`visit_NumberLiteral` evaluates that literal by host division, which raises
`ZeroDivisionError`; so `print(1/0)!` aborts with a wrapped interpretation
error and emits nothing, while the spaced `print(1 / 0)!` goes through the
operator path and emits `undefined`. -/
theorem C1_division_by_zero :
    runDreamBerd ("print(1/0)!") = .error ("Interpretation error: float division by zero")
    ∧ runDreamBerd ("print(1 / 0)!") = .ok [("undefined")]
    ∧ (∀ i : Int, evalArithmetic initState (.vInt i) ("/") (.vInt 0) =
        .ok (.vStr ("undefined"), initState))
    ∧ (∀ q : ℚ, evalArithmetic initState (.vFloat q) ("/") (.vFloat qZero) =
        .ok (.vStr ("undefined"), initState))
    ∧ (parseDreamBerd ("print(1/0)!")).map (fun pr => pr.body) =
        .ok [.exprStmt (.call (.ident ("print")) [.numberLit (.nStr ("1/0"))]) 1 false] :=
  ⟨rfl, rfl, fun _ => rfl, fun _ => rfl, rfl⟩

/-- C2.  The claim says statements after a top-level `reverse!` execute
back-to-front in the same run.  In the code, `visit_Program` consults the
reversed flag once, at entry — before any statement (including `reverse!`)
has executed — and `run_dreamberd` always starts with the flag `false`, so
`reverse!` can never affect its own run: the prints below still emit in
declared order.  `visit_ReverseStatement` itself only toggles the flag. -/
theorem C2_reverse_dead_in_run :
    runDreamBerd ("reverse! print(1)! print(2)!") = .ok [("1"), ("2")]
    ∧ runDreamBerd ("print(1)! reverse! print(2)!") = .ok [("1"), ("2")]
    ∧ (∀ (f : Nat) (st : InterpState), evalStmt (f + 1) st .reverseStmt =
        .ok (.vNone, { st with reversedFlag := !st.reversedFlag }))
    ∧ (∀ (f : Nat) (st : InterpState) (p : ProgramAst), st.reversedFlag = false →
        interpretProgram f st p = evalStmtSeq f st p.body .vNone) := by
  refine ⟨rfl, rfl, fun f st => rfl, fun f st p h => ?_⟩
  simp [interpretProgram, h]

/-- Witness for the hypothesis-bearing conjunct of `C2_reverse_dead_in_run`:
a fresh interpreter has the flag off, so the program body runs forward. -/
theorem C2_reverse_dead_in_run_witness :
    initState.reversedFlag = false
    ∧ interpretProgram 5 initState ⟨[.reverseStmt]⟩ =
        evalStmtSeq 5 initState [.reverseStmt] .vNone :=
  ⟨rfl, C2_reverse_dead_in_run.2.2.2 5 initState ⟨[.reverseStmt]⟩ rfl⟩

/-- C4.  The equality ladder: the four concrete spec examples; the defining
equations of each level (`=` is numeric closeness within the exact tolerance
`1/2`, `==` compares string renderings, `===` is value equality plus equal
runtime category, `====` is identity, which on scalars degenerates to
per-category value equality); and pairwise distinctness of the four
relations, exhibited on concrete inputs (`===` and `====` are separated by
two distinct list objects with equal contents). -/
theorem C4_equality_ladder :
    evalComparison [] (.vInt 3) ("=") (.vFloat (Rat.divInt 157 50)) = .ok (.vBool true)
    ∧ evalComparison [] (.vStr ("3")) ("==") (.vInt 3) = .ok (.vBool true)
    ∧ evalComparison [] (.vStr ("3")) ("===") (.vInt 3) = .ok (.vBool false)
    ∧ evalComparison [] (.vInt 3) ("====") (.vInt 3) = .ok (.vBool true)
    ∧ runDreamBerd ("print(3 = 3.14)! print(\"3\" == 3)! print(\"3\" === 3)! print(3 ==== 3)!")
        = .ok [("True"), ("True"), ("False"), ("True")]
    ∧ (∀ p q : ℚ, evalComparison [] (.vFloat p) ("=") (.vFloat q)
        = .ok (.vBool (qLt (pyAbs (qSub p q)) (Rat.divInt 1 2))))
    ∧ (∀ (i : Int) (q : ℚ), evalComparison [] (.vInt i) ("=") (.vFloat q)
        = .ok (.vBool (qLt (pyAbs (qSub (qInt i) q)) (Rat.divInt 1 2))))
    ∧ (∀ (h : List (List Value)) (l r : Value), evalComparison h l ("==") r
        = .ok (.vBool (pyStr (h.length + 1) h false l == pyStr (h.length + 1) h false r)))
    ∧ (∀ (h : List (List Value)) (l r : Value), evalComparison h l ("===") r
        = .ok (.vBool (pyEq (h.length + 1) h l r && pyTypeName l == pyTypeName r)))
    ∧ (∀ (h : List (List Value)) (l r : Value), evalComparison h l ("====") r
        = .ok (.vBool (pyIs l r)))
    ∧ evalComparison [] (.vInt 3) ("==") (.vFloat (Rat.divInt 157 50)) = .ok (.vBool false)
    ∧ evalComparison [] (.vInt 3) ("===") (.vFloat (Rat.divInt 157 50)) = .ok (.vBool false)
    ∧ evalComparison [] (.vInt 3) ("====") (.vFloat (Rat.divInt 157 50)) = .ok (.vBool false)
    ∧ evalComparison [] (.vStr ("3")) ("====") (.vInt 3) = .ok (.vBool false)
    ∧ evalComparison [[.vInt 1], [.vInt 1]] (.vArr 0) ("===") (.vArr 1) = .ok (.vBool true)
    ∧ evalComparison [[.vInt 1], [.vInt 1]] (.vArr 0) ("====") (.vArr 1) = .ok (.vBool false) :=
  ⟨rfl, rfl, rfl, rfl, rfl, fun _ _ => rfl, fun _ _ => rfl, fun _ _ _ => rfl,
   fun _ _ _ => rfl, fun _ _ _ => rfl, rfl, rfl, rfl, rfl, rfl, rfl⟩

/-- C6.  `const const const x = 42!` stores `42` under `x` and under the
shadow key `__global_const_x` in the global scope and records `x` in the
global-immutable set; reading `x` yields `42`.  The later plain statement
`x = 0!` parses as a very-loose-equality expression (not an assignment), so
evaluating it leaves the constant's exposed value at `42`. -/
theorem C6_global_constant :
    runDreamBerd ("const const const x = 42! x = 0! print(x)!") = .ok [("42")]
    ∧ (runState ("const const const x = 42! x = 0! print(x)!")).map
        (fun st => ((scopeGet st.globals ("x")).map DBValue.value,
                    (scopeGet st.globals ("__global_const_x")).map DBValue.value,
                    st.immutableGlobals.contains ("x")))
        = .ok (some (.vInt 42), some (.vInt 42), true)
    ∧ (parseDreamBerd ("x = 0!")).map (fun pr => pr.body)
        = .ok [.exprStmt (.binOp (.ident ("x")) ("=") (.numberLit (.nInt 0))) 1 false] :=
  ⟨rfl, rfl, rfl⟩

/-- C7 counterexample.  The claim says `var x = 5! ++x!` emits `6`; in the
code an expression statement terminated by `!` emits nothing (only `print`
calls and `?`-terminated statements write output), so the run emits no line
at all. -/
theorem C7_counterexample :
    runDreamBerd ("var x = 5! ++x!") = .ok [] := rfl

/-- C7 as amended.  Prefix `++x` mutates the binding first and yields the
new value as the expression's value, recording it in the wrapper's history
(after `var x = 5! ++x!` the binding holds `6` with history `[5, 6]`, and
the statement emits nothing); the evaluator's postfix handler yields the old
value and then mutates, but the parser never produces postfix increment
nodes — the source `x++!` is a parse error; incrementing a non-numeric
current value is a runtime error. -/
theorem C7_increment :
    (runState ("var x = 5! ++x!")).map
        (fun st => (st.output, (scopeGet st.globals ("x")).map (fun w => (w.value, w.history))))
        = .ok ([], some (.vInt 6, [.vInt 5, .vInt 6]))
    ∧ (∀ i : Int, evalIncrementExpr (numState i) (.ident ("x")) true =
        .ok (.vInt (i + 1), numStateInc i))
    ∧ (∀ i : Int, evalIncrementExpr (numState i) (.ident ("x")) false =
        .ok (.vInt i, numStateInc i))
    ∧ evalIncrementExpr strState (.ident ("x")) true =
        .error ("Cannot increment non-numeric value: str")
    ∧ (parseDreamBerd ("x++!")).isOk = false
    ∧ runDreamBerd ("var x = 5! print(++x)!") = .ok [("6")] :=
  ⟨rfl, fun _ => rfl, fun _ => rfl, rfl, rfl, rfl⟩

/-- C9 counterexample.  The claim says the lexer turns the number word `ten`
into a NUMBER token with text `10`; in fact `tokenize` dispatches alphabetic
runs to `read_identifier` (never to `read_number`), so `ten` lexes as an
IDENTIFIER token with its own spelling. -/
theorem C9_counterexample :
    (tokenize ("ten")).map (fun t => (t.type, t.value))
      = [(.IDENTIFIER, ("ten")), (.EOF, (""))] := rfl

/-- C9 as amended.  Every number word `zero`…`twelve` lexes (in any of the
case variants below) as an IDENTIFIER token carrying its own spelling; the
case-insensitive word table does live in `read_number` — called directly on
a word it would produce the numeric text — but `tokenize` only invokes
`read_number` on a digit, so that branch is unreachable from source text.
Number words still evaluate numerically because the interpreter pre-binds
them as global variables, so `print(ten)!` emits `10`. -/
theorem C9_number_words :
    numberNames.all (fun p =>
      ((tokenize p.1).map (fun t => (t.type, t.value))
        == [(.IDENTIFIER, p.1), (.EOF, (""))])) = true
    ∧ numberNames.all (fun p =>
        let (t, st') := readNumber ⟨p.1.data, 1, 1⟩
        t.type == .NUMBER && t.value == p.2 && st'.rem.isEmpty) = true
    ∧ readNumber ⟨("TEN").data, 1, 1⟩ = (⟨.NUMBER, ("10"), 1, 1, 0⟩, ⟨[], 1, 4⟩)
    ∧ (tokenize ("TEN")).map (fun t => (t.type, t.value))
        = [(.IDENTIFIER, ("TEN")), (.EOF, (""))]
    ∧ numberNames.all (fun p =>
        ((runDreamBerd (("print(") ++ p.1 ++ (")!"))).toOption == some [p.2])) = true
    ∧ runDreamBerd ("print(ten)!") = .ok [("10")] :=
  ⟨rfl, rfl, rfl, rfl, rfl, rfl⟩

/-- C3 counterexample.  The claim says a redeclaration takes effect when its
priority is greater than **or equal to** the existing binding's priority.
Both declarations below carry priority 1 (one `!`), yet the second is
ignored and `x` stays `1`; under the claim's `≥` rule it would print `2`. -/
theorem C3_counterexample :
    runDreamBerd ("const x = 1! const x = 2! print(x)!") = .ok [("1")] := rfl

/-- C3 as amended.  A redeclaration of a live binding that carries a
priority takes effect iff the new terminator priority is **strictly
greater**; on a tie or lower priority the declaration is silently ignored
and the old binding (value, history, lifetime, priority) is left entirely
unchanged — the state is identical.  The spec's worked example still holds:
after `const x = 1! const x = 2!!!`, a later `const x = 3!` leaves `x` at
`2`. -/
theorem C3_redeclaration_priority :
    (∀ (f : Nat) (v : Value) (hist : List Value) (p q k : Int) (cc vc : Nat),
      evalStmt (f + 2) (declState v hist p)
          (.varDecl cc vc ("x") (some (.numberLit (.nInt k))) none q none) =
        if decide (p < q) then .ok (.vNone, declResult k q)
        else .ok (.vNone, declState v hist p))
    ∧ runDreamBerd ("const x = 1! const x = 2!!! const x = 3! print(x)!") = .ok [("2")]
    ∧ runDreamBerd ("const x = 1! const x = 2!!! print(x)!") = .ok [("2")] :=
  ⟨fun _ _ _ _ _ _ _ _ => rfl, rfl, rfl⟩

/-- C5 counterexample.  The claim says out-of-range indexing is a hard
runtime error uniformly for reads and writes.  Writing through an
`Assignment` node with external index `5` into the three-element array
`[1, 2, 3]` succeeds with the assigned value as result and leaves the state
(array included) completely unchanged: an out-of-range write silently does
nothing. -/
theorem C5_counterexample :
    evalExpr 10 (arrState [.vInt 1, .vInt 2, .vInt 3])
        (.assign (.arrayAccess (.ident ("x")) (.numberLit (.nInt 5))) (.numberLit (.nInt 9)))
      = .ok (.vInt 9, arrState [.vInt 1, .vInt 2, .vInt 3]) := rfl

/-- C5 as amended.  The `+1` base shift is applied on both paths, but only
reads enforce bounds: reading `x[i]` returns the stored element at internal
index `i+1` when that is in range and raises a hard `Array index out of
bounds` error otherwise (shown end-to-end below as well); writing `x[i] = v`
through an `Assignment` node overwrites in range and silently does nothing
out of range, always yielding the assigned value; a float-index write
inserts at the truncated shifted position when `0 ≤ pos ≤ len` and is
silently skipped otherwise. -/
theorem C5_array_bounds :
    (∀ (f : Nat) (xs : List Value) (i : Int),
      evalExpr (f + 2) (arrState xs) (.arrayAccess (.ident ("x")) (.numberLit (.nInt i))) =
        if 0 ≤ i + 1 ∧ i + 1 < (xs.length : Int)
        then .ok (xs.getD (i + 1).toNat .vNone, arrState xs)
        else .error ("Array index out of bounds"))
    ∧ (∀ (f : Nat) (xs : List Value) (i k : Int),
      evalExpr (f + 2) (arrState xs)
          (.assign (.arrayAccess (.ident ("x")) (.numberLit (.nInt i))) (.numberLit (.nInt k))) =
        if 0 ≤ i + 1 ∧ i + 1 < (xs.length : Int)
        then .ok (.vInt k, { arrState xs with heap := [xs.set (i + 1).toNat (.vInt k)] })
        else .ok (.vInt k, arrState xs))
    ∧ runDreamBerd ("const const scores = [3, 2, 5]! print(scores[-1])! print(scores[0])!")
        = .ok [("3"), ("2")]
    ∧ runDreamBerd ("const const scores = [3, 2, 5]! print(scores[5])!")
        = .error ("Interpretation error: Array index out of bounds")
    ∧ runDreamBerd ("const const scores = [3, 2, 5]! print(scores[-2])!")
        = .error ("Interpretation error: Array index out of bounds")
    ∧ evalExpr 10 (arrState [.vInt 1, .vInt 2])
        (.assign (.arrayAccess (.ident ("x")) (.numberLit (.nFloat (Rat.divInt 1 2))))
          (.numberLit (.nInt 9)))
        = .ok (.vInt 9, { arrState [.vInt 1, .vInt 2] with heap := [[.vInt 1, .vInt 9, .vInt 2]] })
    ∧ evalExpr 10 (arrState [.vInt 1, .vInt 2])
        (.assign (.arrayAccess (.ident ("x")) (.numberLit (.nFloat (Rat.divInt 9 2))))
          (.numberLit (.nInt 9)))
        = .ok (.vInt 9, arrState [.vInt 1, .vInt 2]) :=
  ⟨fun _ _ _ => rfl, fun _ _ _ _ => rfl, rfl, rfl, rfl, rfl, rfl⟩

/-! ## Lemmas about the lexer scan used by C8 -/

lemma countLeading_eq_zero {c : Char} {cs : List Char} (h : cs.head? ≠ some c) :
    countLeading c cs = 0 := by
  cases cs with
  | nil => rfl
  | cons a as =>
    simp only [List.head?_cons, ne_eq, Option.some.injEq] at h
    simp [countLeading, h]

lemma countLeading_replicate (c : Char) (L : Nat) {rest : List Char}
    (h : rest.head? ≠ some c) :
    countLeading c (List.replicate L c ++ rest) = L := by
  induction L with
  | zero => simpa [countLeading] using countLeading_eq_zero h
  | succ n ih => simp [List.replicate_succ, countLeading, ih]

lemma advance1_cons {c : Char} (hc : c ≠ ('\n')) (cs : List Char) (l col : Nat) :
    advance1 ⟨c :: cs, l, col⟩ = ⟨cs, l, col + 1⟩ := by
  simp [advance1, hc]

lemma advanceN_replicate {c : Char} (hc : c ≠ ('\n')) (n : Nat) (rest : List Char)
    (l : Nat) : ∀ col : Nat,
    advanceN n ⟨List.replicate n c ++ rest, l, col⟩ = ⟨rest, l, col + n⟩ := by
  induction n with
  | zero => intro col; simp [advanceN]
  | succ m ih =>
    intro col
    rw [List.replicate_succ, List.cons_append]
    show advanceN m (advance1 ⟨c :: (List.replicate m c ++ rest), l, col⟩) = _
    rw [advance1_cons hc, ih (col + 1)]
    congr 1
    omega

/-- C8.  At any scan position starting a maximal run of `L` `=` characters
(not immediately followed by `>` when `L = 1`; for `L ≥ 2` the next
character after the first `=` is another `=`, so the arrow check cannot
fire), one `tokenize` step emits exactly one token whose kind is determined
by `L` — assignment, loose, strict, super-strict equality for `L = 1..4`
and a file separator for `L ≥ 5` — consuming the entire run and never
decomposing it; and whenever the scanner sits on `=` directly followed by
`>`, it emits one arrow token before any run counting.  A concrete
tokenization exercising runs of each length is included. -/
theorem C8_equals_runs :
    (∀ (L : Nat) (rest : List Char) (l c : Nat), 1 ≤ L →
      rest.head? ≠ some ('=') → (L = 1 → rest.head? ≠ some ('>')) →
      lexStep ⟨List.replicate L ('=') ++ rest, l, c⟩ =
        ([⟨equalsRunToken L, String.mk (List.replicate L ('=')), l, c, 0⟩], ⟨rest, l, c + L⟩))
    ∧ (∀ (rest : List Char) (l c : Nat),
      lexStep ⟨('=') :: ('>') :: rest, l, c⟩ =
        ([⟨.ARROW, ("=>"), l, c, 0⟩], ⟨rest, l, c + 2⟩))
    ∧ equalsRunToken 1 = .ASSIGN ∧ equalsRunToken 2 = .LOOSE_EQUAL
    ∧ equalsRunToken 3 = .STRICT_EQUAL ∧ equalsRunToken 4 = .SUPER_STRICT_EQUAL
    ∧ (∀ L, 5 ≤ L → equalsRunToken L = .FILE_SEPARATOR)
    ∧ (tokenize ("a = b == c === d ==== e ===== k => g")).map (fun t => t.type)
        = [.IDENTIFIER, .ASSIGN, .IDENTIFIER, .LOOSE_EQUAL, .IDENTIFIER, .STRICT_EQUAL,
           .IDENTIFIER, .SUPER_STRICT_EQUAL, .IDENTIFIER, .FILE_SEPARATOR, .IDENTIFIER,
           .ARROW, .IDENTIFIER, .EOF] := by
  refine ⟨?_, ?_, rfl, rfl, rfl, rfl, ?_, rfl⟩
  · intro L rest l c hL hne harrow
    obtain ⟨M, rfl⟩ : ∃ M, L = M + 1 := ⟨L - 1, by omega⟩
    rw [List.replicate_succ, List.cons_append]
    have hhead : (List.replicate M ('=') ++ rest).head? ≠ some ('>') := by
      cases M with
      | zero => simpa using harrow rfl
      | succ m => simp [List.replicate_succ]
    have hcount : countLeading ('=') (('=') :: (List.replicate M ('=') ++ rest)) = M + 1 := by
      have h0 := @countLeading_replicate ('=') (M + 1) rest hne
      rwa [List.replicate_succ, List.cons_append] at h0
    have hadv : advanceN (M + 1) ⟨('=') :: (List.replicate M ('=') ++ rest), l, c⟩
        = ⟨rest, l, c + (M + 1)⟩ := by
      have h0 := @advanceN_replicate ('=') (by decide) (M + 1) rest l c
      rwa [List.replicate_succ, List.cons_append] at h0
    have h1 : lexStep ⟨('=') :: (List.replicate M ('=') ++ rest), l, c⟩ =
        if ('=') = ('=') ∧ (List.replicate M ('=') ++ rest).head? = some ('>')
        then ([⟨.ARROW, ("=>"), l, c, 0⟩],
              advance1 (advance1 ⟨('=') :: (List.replicate M ('=') ++ rest), l, c⟩))
        else ([⟨equalsRunToken (countLeading ('=') (('=') :: (List.replicate M ('=') ++ rest))),
                String.mk (List.replicate
                  (countLeading ('=') (('=') :: (List.replicate M ('=') ++ rest))) ('=')),
                l, c, 0⟩],
              advanceN (countLeading ('=') (('=') :: (List.replicate M ('=') ++ rest)))
                ⟨('=') :: (List.replicate M ('=') ++ rest), l, c⟩) := rfl
    rw [h1, if_neg (fun hand => hhead hand.2), hcount, hadv, List.replicate_succ]
  · intro rest l c
    rfl
  · intro L hL
    simp [equalsRunToken, hL]

/-- Witness for `C8_equals_runs`: the run-classification conjunct applied at
the concrete run `===x` (length 3, followed by a non-`=`, non-`>`
character). -/
theorem C8_equals_runs_witness :
    (1 ≤ 3 ∧ ([('x')] : List Char).head? ≠ some ('=')
      ∧ ((3 : Nat) = 1 → ([('x')] : List Char).head? ≠ some ('>')))
    ∧ lexStep ⟨List.replicate 3 ('=') ++ [('x')], 1, 1⟩ =
        ([⟨equalsRunToken 3, String.mk (List.replicate 3 ('=')), 1, 1, 0⟩], ⟨[('x')], 1, 1 + 3⟩) :=
  ⟨⟨by decide, by decide, fun h => by simp at h⟩,
   C8_equals_runs.1 3 [('x')] 1 1 (by decide) (by decide) (fun h => by simp at h)⟩

/-! ## The value-history invariant (C10) -/

/-- Invariant of a value wrapper: the history is non-empty and its last
entry is the wrapper's current value. -/
def ValueInv (w : DBValue) : Prop :=
  w.history ≠ [] ∧ w.history.getLast? = some w.value

/-- Every wrapper stored in a scope satisfies the invariant. -/
def ScopeInv (s : Scope) : Prop := ∀ p ∈ s, ValueInv p.2

/-- Every wrapper reachable through the interpreter's scope chain satisfies
the invariant. -/
def StateInv (st : InterpState) : Prop :=
  (∀ s ∈ st.locals, ScopeInv s) ∧ ScopeInv st.globals

lemma valueInv_mkDBValue (v : Value) : ValueInv (mkDBValue v) :=
  ⟨by simp [mkDBValue], by simp [mkDBValue]⟩

lemma valueInv_setValue (w : DBValue) (x : Value) : ValueInv (w.setValue x) := by
  refine ⟨by simp [DBValue.setValue], ?_⟩
  simp [DBValue.setValue, List.getLast?_concat]

lemma scopeInv_scopeSet {s : Scope} {v : DBValue} (n : String)
    (hs : ScopeInv s) (hv : ValueInv v) : ScopeInv (scopeSet s n v) := by
  induction s with
  | nil =>
    intro p hp
    simp [scopeSet] at hp
    simp [hp, hv]
  | cons head tail ih =>
    obtain ⟨k, w⟩ := head
    intro p hp
    by_cases hk : k = n
    · simp [scopeSet, hk] at hp
      rcases hp with hp | hp
      · simp [hp, hv]
      · exact hs p (List.mem_cons_of_mem _ hp)
    · simp [scopeSet, hk] at hp
      rcases hp with hp | hp
      · exact hs p (by simp [hp])
      · exact ih (fun q hq => hs q (List.mem_cons_of_mem _ hq)) p hp

lemma scopeInv_scopeMap {s : Scope} {f : DBValue → DBValue} (n : String)
    (hs : ScopeInv s) (hf : ∀ w, ValueInv w → ValueInv (f w)) :
    ScopeInv (scopeMap s n f) := by
  induction s with
  | nil => intro p hp; simp [scopeMap] at hp
  | cons head tail ih =>
    obtain ⟨k, w⟩ := head
    intro p hp
    by_cases hk : k = n
    · simp [scopeMap, hk] at hp
      rcases hp with hp | hp
      · refine ?_
        have hw : ValueInv w := hs (k, w) (by simp)
        simp [hp]
        exact hf w hw
      · exact hs p (List.mem_cons_of_mem _ hp)
    · simp [scopeMap, hk] at hp
      rcases hp with hp | hp
      · exact hs p (by simp [hp])
      · exact ih (fun q hq => hs q (List.mem_cons_of_mem _ hq)) p hp

lemma scopeInv_scopeErase {s : Scope} (n : String) (hs : ScopeInv s) :
    ScopeInv (scopeErase s n) := by
  induction s with
  | nil => intro p hp; simp [scopeErase] at hp
  | cons head tail ih =>
    obtain ⟨k, w⟩ := head
    intro p hp
    by_cases hk : k = n
    · simp [scopeErase, hk] at hp
      exact hs p (List.mem_cons_of_mem _ hp)
    · simp [scopeErase, hk] at hp
      rcases hp with hp | hp
      · exact hs p (by simp [hp])
      · exact ih (fun q hq => hs q (List.mem_cons_of_mem _ hq)) p hp

lemma mem_of_lookup {s : Scope} {n : String} {w : DBValue}
    (h : List.lookup n s = some w) : (n, w) ∈ s := by
  induction s with
  | nil => simp [List.lookup] at h
  | cons head tail ih =>
    obtain ⟨k, v⟩ := head
    rcases hbk : (n == k) with _ | _
    · simp only [List.lookup, hbk] at h
      exact List.mem_cons_of_mem _ (ih h)
    · simp only [List.lookup, hbk, Option.some.injEq] at h
      have hk : n = k := by simpa using hbk
      simp [hk, h]

lemma updateFirstScopes_inv {ls : List Scope} {f : DBValue → DBValue} (n : String)
    (hls : ∀ s ∈ ls, ScopeInv s) (hf : ∀ w, ValueInv w → ValueInv (f w)) :
    ∀ s ∈ (updateFirstScopes n f ls).1, ScopeInv s := by
  induction ls with
  | nil => intro s hs; simp [updateFirstScopes] at hs
  | cons hd tl ih =>
    intro s hs
    by_cases hh : scopeHas hd n
    · simp [updateFirstScopes, hh] at hs
      rcases hs with hs | hs
      · rw [hs]
        exact scopeInv_scopeMap n (hls hd (by simp)) hf
      · exact hls s (List.mem_cons_of_mem _ hs)
    · simp [updateFirstScopes, hh] at hs
      rcases hs with hs | hs
      · exact hls s (by simp [hs])
      · exact ih (fun q hq => hls q (List.mem_cons_of_mem _ hq)) s hs

lemma evictFindScopes_inv {ls : List Scope} (now : ℚ) (n : String)
    (hls : ∀ s ∈ ls, ScopeInv s) :
    (∀ s ∈ (evictFindScopes now n ls).1, ScopeInv s)
    ∧ (∀ w, (evictFindScopes now n ls).2 = some w → ValueInv w) := by
  induction ls with
  | nil =>
    exact ⟨fun s hs => by simp [evictFindScopes] at hs,
           fun w hw => by simp [evictFindScopes] at hw⟩
  | cons hd tl ih =>
    have hhd : ScopeInv hd := hls hd (by simp)
    have htl : ∀ s ∈ tl, ScopeInv s := fun q hq => hls q (List.mem_cons_of_mem _ hq)
    obtain ⟨ih1, ih2⟩ := ih htl
    rcases hlk : List.lookup n hd with _ | w
    · constructor
      · intro s hs
        simp [evictFindScopes, hlk] at hs
        rcases hs with hs | hs
        · exact hs ▸ hhd
        · exact ih1 s hs
      · intro w hw
        simp [evictFindScopes, hlk] at hw
        exact ih2 w hw
    · by_cases hexp : DBValue.isExpired now w
      · constructor
        · intro s hs
          simp [evictFindScopes, hlk, hexp] at hs
          rcases hs with hs | hs
          · exact hs ▸ scopeInv_scopeErase n hhd
          · exact ih1 s hs
        · intro w' hw'
          simp [evictFindScopes, hlk, hexp] at hw'
          exact ih2 w' hw'
      · constructor
        · intro s hs
          simp [evictFindScopes, hlk, hexp] at hs
          rcases hs with hs | hs
          · exact hs ▸ hhd
          · exact htl s hs
        · intro w' hw'
          simp [evictFindScopes, hlk, hexp] at hw'
          exact hw' ▸ hhd (n, w) (mem_of_lookup hlk)

lemma getVariable_state_inv {st : InterpState} (n : String) (h : StateInv st) :
    StateInv (getVariable st n).1 := by
  obtain ⟨hloc, hglob⟩ := h
  have he := @evictFindScopes_inv st.locals st.now n hloc
  unfold getVariable
  rcases hev : evictFindScopes st.now n st.locals with ⟨locals', res⟩
  rw [hev] at he
  obtain ⟨he1, _⟩ := he
  rcases res with _ | w
  · rcases hlk : List.lookup n st.globals with _ | w
    · exact ⟨he1, hglob⟩
    · by_cases hexp : DBValue.isExpired st.now w = true
      · simp only [hexp, if_true]
        exact ⟨he1, scopeInv_scopeErase n hglob⟩
      · simp only [eq_false_of_ne_true hexp, Bool.false_eq_true, if_false]
        by_cases hdel : w.deleted = true
        · simp only [hdel, if_true]
          exact ⟨he1, hglob⟩
        · simp only [eq_false_of_ne_true hdel, Bool.false_eq_true, if_false]
          exact ⟨he1, hglob⟩
  · by_cases hdel : w.deleted = true
    · simp only [hdel, if_true]
      exact ⟨he1, hglob⟩
    · simp only [eq_false_of_ne_true hdel, Bool.false_eq_true, if_false]
      exact ⟨he1, hglob⟩

lemma getVariable_ok_inv {st : InterpState} {n : String} {w : DBValue}
    (h : StateInv st) (hok : (getVariable st n).2 = .ok w) : ValueInv w := by
  obtain ⟨hloc, hglob⟩ := h
  have he := @evictFindScopes_inv st.locals st.now n hloc
  unfold getVariable at hok
  rcases hev : evictFindScopes st.now n st.locals with ⟨locals', res⟩
  rw [hev] at he hok
  obtain ⟨_, he2⟩ := he
  rcases res with _ | w'
  · rcases hlk : List.lookup n st.globals with _ | w'
    · rw [hlk] at hok
      simp at hok
    · rw [hlk] at hok
      by_cases hexp : DBValue.isExpired st.now w' = true
      · simp only [hexp, if_true] at hok
        simp at hok
      · simp only [eq_false_of_ne_true hexp, Bool.false_eq_true, if_false] at hok
        by_cases hdel : w'.deleted = true
        · simp only [hdel, if_true] at hok
          simp at hok
        · simp only [eq_false_of_ne_true hdel, Bool.false_eq_true, if_false] at hok
          simp at hok
          exact hok ▸ hglob (n, w') (mem_of_lookup hlk)
  · by_cases hdel : w'.deleted = true
    · simp only [hdel, if_true] at hok
      simp at hok
    · simp only [eq_false_of_ne_true hdel, Bool.false_eq_true, if_false] at hok
      simp at hok
      exact hok ▸ he2 w' rfl

lemma modifyFoundVar_inv {st : InterpState} {f : DBValue → DBValue} (n : String)
    (h : StateInv st) (hf : ∀ w, ValueInv w → ValueInv (f w)) :
    StateInv (modifyFoundVar st n f) := by
  obtain ⟨hloc, hglob⟩ := h
  have hu := updateFirstScopes_inv n hloc hf
  unfold modifyFoundVar
  rcases hup : updateFirstScopes n f st.locals with ⟨locals', b⟩
  rw [hup] at hu
  cases b
  · exact ⟨hloc, scopeInv_scopeMap n hglob hf⟩
  · exact ⟨hu, hglob⟩

lemma setCurrentScope_inv {st : InterpState} {v : DBValue} (n : String)
    (h : StateInv st) (hv : ValueInv v) : StateInv (setCurrentScope st n v) := by
  obtain ⟨hloc, hglob⟩ := h
  unfold setCurrentScope
  rcases hls : st.locals with _ | ⟨s, rest⟩
  · exact ⟨fun q hq => by simp at hq, scopeInv_scopeSet n hglob hv⟩
  · refine ⟨?_, hglob⟩
    intro q hq
    rcases List.mem_cons.mp hq with hq | hq
    · exact hq ▸ scopeInv_scopeSet n (hloc s (by rw [hls]; simp)) hv
    · exact hloc q (by rw [hls]; exact List.mem_cons_of_mem _ hq)

lemma setVariable_inv {st : InterpState} {v : DBValue} (n : String) (b : Bool)
    (h : StateInv st) (hv : ValueInv v) : StateInv (setVariable st n v b) := by
  obtain ⟨hloc, hglob⟩ := h
  unfold setVariable
  cases b
  · simp only [Bool.false_eq_true, if_false]
    have hu := updateFirstScopes_inv (f := fun w => w.setValue v.value) n hloc
      (fun w _ => valueInv_setValue w v.value)
    rcases hup : updateFirstScopes n (fun w => w.setValue v.value) st.locals with ⟨locals', bb⟩
    rw [hup] at hu
    cases bb
    · by_cases hh : scopeHas st.globals n = true
      · simp only [hh, if_true]
        exact ⟨hloc, scopeInv_scopeMap n hglob (fun w _ => valueInv_setValue w v.value)⟩
      · simp only [eq_false_of_ne_true hh, Bool.false_eq_true, if_false]
        exact setCurrentScope_inv n ⟨hloc, hglob⟩ hv
    · exact ⟨hu, hglob⟩
  · simp only [if_true]
    exact setCurrentScope_inv n ⟨hloc, hglob⟩ hv

lemma evalIncrementExpr_inv {st st' : InterpState} {t : Expr} {pre : Bool} {r : Value}
    (h : StateInv st) (hok : evalIncrementExpr st t pre = .ok (r, st')) : StateInv st' := by
  cases t <;> simp only [evalIncrementExpr] at hok <;> try exact absurd hok (by simp)
  case ident n =>
    rcases hg : getVariable st n with ⟨st1, res⟩
    rw [hg] at hok
    dsimp only at hok
    have hst1 : StateInv st1 := by
      have h1 := getVariable_state_inv n h
      rwa [hg] at h1
    split at hok
    · exact absurd hok (by simp)
    · split at hok
      · split at hok
        · simp at hok
          obtain ⟨-, rfl⟩ := hok
          exact modifyFoundVar_inv n hst1 fun w' _ => valueInv_setValue w' _
        · simp at hok
          obtain ⟨-, rfl⟩ := hok
          exact modifyFoundVar_inv n hst1 fun w' _ => valueInv_setValue w' _
      · exact absurd hok (by simp)

lemma evalDecrementExpr_inv {st st' : InterpState} {t : Expr} {pre : Bool} {r : Value}
    (h : StateInv st) (hok : evalDecrementExpr st t pre = .ok (r, st')) : StateInv st' := by
  cases t <;> simp only [evalDecrementExpr] at hok <;> try exact absurd hok (by simp)
  case ident n =>
    rcases hg : getVariable st n with ⟨st1, res⟩
    rw [hg] at hok
    dsimp only at hok
    have hst1 : StateInv st1 := by
      have h1 := getVariable_state_inv n h
      rwa [hg] at h1
    split at hok
    · exact absurd hok (by simp)
    · split at hok
      · split at hok
        · simp at hok
          obtain ⟨-, rfl⟩ := hok
          exact modifyFoundVar_inv n hst1 fun w' _ => valueInv_setValue w' _
        · simp at hok
          obtain ⟨-, rfl⟩ := hok
          exact modifyFoundVar_inv n hst1 fun w' _ => valueInv_setValue w' _
      · exact absurd hok (by simp)

lemma stateInv_initState : StateInv initState := by
  constructor
  · intro s hs
    simp [initState] at hs
  · intro p hp
    simp only [initState, builtinGlobals, List.mem_cons, List.not_mem_nil, or_false] at hp
    rcases hp with rfl | rfl | rfl | rfl | rfl | rfl | rfl | rfl | rfl | rfl | rfl | rfl | rfl | rfl | rfl <;>
      exact valueInv_mkDBValue _

lemma stateInv_numState (i : Int) : StateInv (numState i) :=
  ⟨fun _ hs => by simp [numState, initState] at hs,
   scopeInv_scopeSet ("x") stateInv_initState.2 (valueInv_mkDBValue _)⟩

/-- C10.  The history invariant: every wrapper is created with the
one-element history `[value]` (so the invariant holds at construction);
`set_value` — the single primitive through which scope-chain assignment
(`set_variable`) and the increment/decrement visitors mutate wrappers —
appends the new value and re-establishes the invariant unconditionally; the
whole-state invariant is preserved by `set_variable` in both of its modes
and by evaluating increment/decrement expressions; and `previous x` is
well-defined: with at least two history entries it is exactly the
second-to-last entry, and under the invariant a shorter history forces
`previous` to coincide with the current value. -/
theorem C10_history_invariant :
    (∀ v : Value, ValueInv (mkDBValue v))
    ∧ (∀ (w : DBValue) (x : Value), ValueInv (w.setValue x))
    ∧ (∀ w : DBValue, 2 ≤ w.history.length →
        w.history[w.history.length - 2]? = some (DBValue.getPrevious w))
    ∧ (∀ w : DBValue, ValueInv w → w.history.length < 2 → DBValue.getPrevious w = w.value)
    ∧ (∀ (st : InterpState) (n : String) (v : DBValue) (b : Bool),
        StateInv st → ValueInv v → StateInv (setVariable st n v b))
    ∧ (∀ (st st' : InterpState) (t : Expr) (pre : Bool) (r : Value),
        StateInv st → evalIncrementExpr st t pre = .ok (r, st') → StateInv st')
    ∧ (∀ (st st' : InterpState) (t : Expr) (pre : Bool) (r : Value),
        StateInv st → evalDecrementExpr st t pre = .ok (r, st') → StateInv st') := by
  refine ⟨valueInv_mkDBValue, valueInv_setValue, ?_, ?_,
    fun st n v b h hv => setVariable_inv n b h hv,
    fun st st' t pre r h hok => evalIncrementExpr_inv h hok,
    fun st st' t pre r h hok => evalDecrementExpr_inv h hok⟩
  · intro w hlen
    have hlt : w.history.length - 2 < w.history.length := by omega
    rw [DBValue.getPrevious, if_pos hlen, List.getD_eq_getElem?_getD,
      List.getElem?_eq_getElem hlt]
    simp
  · intro w hw hlen
    rw [DBValue.getPrevious, if_neg (by omega)]

/-- Witness for `C10_history_invariant`: the increment-preservation conjunct
applied at the concrete state binding `x` to `5`, whose invariant and
evaluation are checked on the spot. -/
theorem C10_history_invariant_witness :
    (StateInv (numState 5)
      ∧ evalIncrementExpr (numState 5) (.ident ("x")) true = .ok (.vInt 6, numStateInc 5))
    ∧ StateInv (numStateInc 5) :=
  ⟨⟨stateInv_numState 5, rfl⟩,
   C10_history_invariant.2.2.2.2.2.1 (numState 5) (numStateInc 5) (.ident ("x")) true (.vInt 6)
     (stateInv_numState 5) rfl⟩

end DreamBerd
